import Mathlib

set_option linter.unusedVariables false

/-!
A shallow embedding, in Lean 4, of the NES emulator core found in
`src/nes/` (bus.py, cpu.py, ppu.py, cartridge.py, mappers/mapper_000.py).

Python integers are unbounded and signed, so every register, memory cell
and address is modelled as `Int`.  Python's bitwise operators act on the
two's-complement representation of those unbounded integers; the
`pyAnd`/`pyOr`/`pyXor`/`pyNot`/`pyShl`/`pyShr` primitives below implement
exactly that semantics (and are kernel-computable, unlike `Int.land` in
this Mathlib snapshot, which goes through non-reducing `Nat.ldiff`).
Python lists become `Array Int` with the `pyIndex`/`pySet` helpers
reproducing Python's bounds checking (including negative-index wrap) by
returning `Except` on `IndexError`.  Methods that can raise at runtime
return `Except String _`; everything else is a pure state transformer.
-/

namespace NES

deriving instance DecidableEq for Except

/-- Two's-complement bitwise AND on unbounded integers, exactly Python's
`a & b`.  For negative arguments the identities `x & ~n = x - (x & n)`
(for `x ≥ 0`) and `~m & ~n = ~(m | n)` reduce everything to `Nat`
operations, which the kernel evaluates natively. -/
def pyAnd (a b : Int) : Int :=
  if 0 ≤ a then
    if 0 ≤ b then Int.ofNat (a.toNat &&& b.toNat)
    else Int.ofNat (a.toNat - (a.toNat &&& (-b - 1).toNat))
  else
    if 0 ≤ b then Int.ofNat (b.toNat - (b.toNat &&& (-a - 1).toNat))
    else -(Int.ofNat (((-a - 1).toNat ||| (-b - 1).toNat)) + 1)

/-- Two's-complement bitwise OR, exactly Python's `a | b`:
`x | ~n = ~(n & ~x) = ~(n - (n & x))` and `~m | ~n = ~(m & n)`. -/
def pyOr (a b : Int) : Int :=
  if 0 ≤ a then
    if 0 ≤ b then Int.ofNat (a.toNat ||| b.toNat)
    else -(Int.ofNat ((-b - 1).toNat - ((-b - 1).toNat &&& a.toNat)) + 1)
  else
    if 0 ≤ b then -(Int.ofNat ((-a - 1).toNat - ((-a - 1).toNat &&& b.toNat)) + 1)
    else -(Int.ofNat ((-a - 1).toNat &&& (-b - 1).toNat) + 1)

/-- Two's-complement bitwise XOR, exactly Python's `a ^ b`:
`x ^ ~n = ~(x ^ n)` and `~m ^ ~n = m ^ n`. -/
def pyXor (a b : Int) : Int :=
  if 0 ≤ a then
    if 0 ≤ b then Int.ofNat (a.toNat ^^^ b.toNat)
    else -(Int.ofNat (a.toNat ^^^ (-b - 1).toNat) + 1)
  else
    if 0 ≤ b then -(Int.ofNat ((-a - 1).toNat ^^^ b.toNat) + 1)
    else Int.ofNat ((-a - 1).toNat ^^^ (-b - 1).toNat)

/-- Python's `~a` (bitwise complement) on unbounded integers. -/
def pyNot (a : Int) : Int := -a - 1

/-- Python's `a << n`: an exact multiplication by `2 ^ n` (the source
only ever shifts by non-negative literal amounts). -/
def pyShl (a : Int) (n : Int) : Int := a * 2 ^ n.toNat

/-- Python's `a >> n`: an arithmetic (floor) shift, i.e. floor division
by `2 ^ n`; `Int.ediv` is floor division for a positive divisor. -/
def pyShr (a : Int) (n : Int) : Int := Int.ediv a (2 ^ n.toNat)

instance : AndOp Int := ⟨pyAnd⟩
instance : OrOp Int := ⟨pyOr⟩
instance : Xor Int := ⟨pyXor⟩
instance : Complement Int := ⟨pyNot⟩
instance : ShiftLeft Int := ⟨pyShl⟩
instance : ShiftRight Int := ⟨pyShr⟩

/-- Python list read `xs[i]`: negative indices wrap once from the end,
anything still out of range raises `IndexError`. -/
def pyIndex {α : Type} (xs : Array α) (i : Int) : Except String α :=
  let j : Int := if i < 0 then (xs.size : Int) + i else i
  if 0 ≤ j then
    match xs.get? j.toNat with
    | some v => Except.ok v
    | none => Except.error "IndexError"
  else Except.error "IndexError"

/-- Python list write `xs[i] = v`, with the same index semantics as
`pyIndex`. -/
def pySet {α : Type} (xs : Array α) (i : Int) (v : α) : Except String (Array α) :=
  let j : Int := if i < 0 then (xs.size : Int) + i else i
  if 0 ≤ j ∧ j.toNat < xs.size then Except.ok (xs.setD j.toNat v)
  else Except.error "IndexError"

/-- Python `int(bool)`: `True` is `1`, `False` is `0`. -/
def boolInt (b : Bool) : Int := if b then 1 else 0

/-- `_get_flag` of both `CPU` and `PPU`: `(register & flag.value) > 0`. -/
def getFlagBit (reg flag : Int) : Bool := decide (0 < reg &&& flag)

/-- `_set_flag` of both `CPU` and `PPU`:
`register ^= (-value ^ register) & flag.value` (Python negates the bool,
so `True` contributes `-1`, i.e. all bits set). -/
def setFlagBit (reg flag : Int) (value : Bool) : Int :=
  reg ^^^ ((-(boolInt value) ^^^ reg) &&& flag)

/-! ## Mapper 000 (src/nes/mappers/mapper_000.py) -/

structure Mapper000 where
  prg_banks : Int
  chr_banks : Int
deriving DecidableEq

/-- `Mapper000.map_write`.  Pattern space passes through only when there
are no pattern banks; program space is masked by `0x7FFF` when more than
one program bank is present, else by `0x3FFF`; anything else is the
sentinel `-0x0001`. -/
def Mapper000.map_write (m : Mapper000) (address : Int) : Int :=
  if (0x0000 ≤ address ∧ address ≤ 0x1FFF) ∧ m.chr_banks = 0 then address
  else if 0x8000 ≤ address ∧ address ≤ 0xFFFF then
    address &&& (if 1 < m.prg_banks then 0x7FFF else 0x3FFF)
  else -0x0001

/-- `Mapper000.map_read`.  Like `map_write` but pattern space passes
through unconditionally. -/
def Mapper000.map_read (m : Mapper000) (address : Int) : Int :=
  if 0x0000 ≤ address ∧ address ≤ 0x1FFF then address
  else if 0x8000 ≤ address ∧ address ≤ 0xFFFF then
    address &&& (if 1 < m.prg_banks then 0x7FFF else 0x3FFF)
  else -0x0001

/-! ## Cartridge (src/nes/cartridge.py) -/

inductive MIRROR where
  | HORIZONTAL
  | VERTICAL
deriving DecidableEq

/-- The run-time state of a `Cartridge` (the `__init__` file parsing is
out of scope; claims quantify over arbitrary cartridge states). -/
structure Cartridge where
  prg_banks : Int
  chr_banks : Int
  prg_memory : Array Int
  chr_memory : Array Int
  mapper : Option Mapper000
  mirror : MIRROR
  valid_image : Bool
deriving DecidableEq

/-- `Cartridge.read`: translate through the mapper; on the `-0x0001`
sentinel (or no mapper) return `0x00`; otherwise index pattern memory
for addresses up to `0x1FFF` and program memory for `0x8000..0xFFFF`
(a Python list index, which can raise `IndexError`). -/
def Cartridge.read (c : Cartridge) (address : Int) : Except String Int :=
  match c.mapper with
  | some m =>
    let mapped_address := m.map_read address
    if mapped_address ≠ -0x0001 then
      if 0x0000 ≤ address ∧ address ≤ 0x1FFF then pyIndex c.chr_memory mapped_address
      else if 0x8000 ≤ address ∧ address ≤ 0xFFFF then pyIndex c.prg_memory mapped_address
      else Except.ok 0x00
    else Except.ok 0x00
  | none => Except.ok 0x00

/-- `Cartridge.write` (src/nes/cartridge.py line 78) evaluates
`self.mapper.map_write(address, data)` — two positional arguments — but
`Mapper000.map_write` (src/nes/mappers/mapper_000.py line 9) is declared
as `def map_write(self, address)`, taking only one.  With any mapper
attached the call therefore raises a `TypeError` before any translation
or memory update happens; with no mapper the method does nothing. -/
def Cartridge.write (c : Cartridge) (address data : Int) : Except String Cartridge :=
  match c.mapper with
  | some _ =>
    Except.error "TypeError: map_write takes 2 positional arguments but 3 were given"
  | none => Except.ok c

/-! ## PPU (src/nes/ppu.py)

`PPU.__init__` builds `self.name_table = 2 * [1024 * [0x00]]` and
`self.pattern_table = 2 * [4096 * [0x00]]`.  In Python, multiplying a
list replicates the *reference*: both rows of `name_table` are the same
1024-cell list object, and both rows of `pattern_table` are the same
4096-cell list object.  The embedding therefore stores each table as its
single shared backing store; a row index (0 or 1) computed by `_read` /
`_write` selects between two references to that one store and never
affects which cells are touched.  The pygame `Surface` fields
(`screen`, `patterns`) are presentation-layer and are not modelled. -/

structure PPUState where
  controller_reg : Int
  mask_reg : Int
  status_reg : Int
  address_reg : Int
  data_reg : Int
  name_table : Array Int
  pattern_table : Array Int
  palette_table : Array Int
  cart : Option Cartridge
  frame_complete : Bool
  cycles : Int
  scanline : Int
  clock_count : Int
deriving DecidableEq

/-- `PPU.CONTROLLER.IM` (increment mode), bit 2. -/
def PPU.CONTROLLER_IM : Int := (1 : Int) <<< (2 : Int)

/-- `PPU.STATUS.VB` (vertical blank), bit 7. -/
def PPU.STATUS_VB : Int := (1 : Int) <<< (7 : Int)

/-- `PPU.__init__` (registers and memories; counters zero). -/
def PPU.init : PPUState where
  controller_reg := 0x00
  mask_reg := 0x00
  status_reg := 0x00
  address_reg := 0x00
  data_reg := 0x00
  name_table := Array.mkArray 1024 0x00
  pattern_table := Array.mkArray 4096 0x00
  palette_table := Array.mkArray 32 0x00
  cart := none
  frame_complete := false
  cycles := 0
  scanline := 0
  clock_count := 0

/-- `PPU._write`: write to the PPU's own bus.  The pattern-table row
`(address & 0x1000) >> 12` and the nametable rows selected by the
mirroring comparisons all alias the one shared store (see above), so
every row write is a write into that store. -/
def PPU.busWrite (p : PPUState) (address data : Int) : Except String PPUState :=
  let address := address &&& 0x3FFF
  if 0x0000 ≤ address ∧ address ≤ 0x1FFF then do
    let t ← pySet p.pattern_table (address &&& 0x0FFF) data
    Except.ok { p with pattern_table := t }
  else if (0x2000 ≤ address ∧ address ≤ 0x3EFF) ∧ p.cart.isSome then
    let address := address &&& 0x0FFF
    match p.cart with
    | some c =>
      if c.mirror = MIRROR.HORIZONTAL ∧ 0x0000 ≤ address ∧ address ≤ 0x07FF then do
        let t ← pySet p.name_table (address &&& 0x03FF) data
        Except.ok { p with name_table := t }
      else if c.mirror = MIRROR.HORIZONTAL ∧ 0x0800 ≤ address ∧ address ≤ 0x0FFF then do
        let t ← pySet p.name_table (address &&& 0x03FF) data
        Except.ok { p with name_table := t }
      else if c.mirror = MIRROR.VERTICAL ∧
          ((0x0000 ≤ address ∧ address ≤ 0x03FF) ∨ (0x0800 ≤ address ∧ address ≤ 0x0BFF)) then do
        let t ← pySet p.name_table (address &&& 0x03FF) data
        Except.ok { p with name_table := t }
      else if c.mirror = MIRROR.VERTICAL ∧
          ((0x0400 ≤ address ∧ address ≤ 0x07FF) ∨ (0x0C00 ≤ address ∧ address ≤ 0x0FFF)) then do
        let t ← pySet p.name_table (address &&& 0x03FF) data
        Except.ok { p with name_table := t }
      else Except.ok p
    | none => Except.ok p
  else if 0x3F00 ≤ address ∧ address ≤ 0x3FFF then
    let address := address &&& 0x1F
    let address :=
      if address = 0x10 ∨ address = 0x14 ∨ address = 0x18 ∨ address = 0x1C
      then address &&& 0xF else address
    do
      let t ← pySet p.palette_table address data
      Except.ok { p with palette_table := t }
  else
    match p.cart with
    | some c => do
        let c' ← Cartridge.write c (address &&& 0x3FFF) data
        Except.ok { p with cart := some c' }
    | none => Except.ok p

/-- `PPU._read`: read from the PPU's own bus.  The Python nametable
branch is a sequence of plain `if` statements; when none of the mirror
sub-ranges matches, control falls through to the palette test and the
final cartridge read with the already-masked address — `busReadTail`
reproduces that fallthrough. -/
def PPU.busReadTail (p : PPUState) (address : Int) : Except String Int :=
  if 0x3F00 ≤ address ∧ address ≤ 0x3FFF then
    let address := address &&& 0x1F
    let address :=
      if address = 0x10 ∨ address = 0x14 ∨ address = 0x18 ∨ address = 0x1C
      then address &&& 0xF else address
    pyIndex p.palette_table address
  else
    match p.cart with
    | some c => Cartridge.read c (address &&& 0x3FFF)
    | none => Except.ok 0x00

def PPU.busRead (p : PPUState) (address : Int) : Except String Int :=
  let address := address &&& 0x3FFF
  if 0x0000 ≤ address ∧ address ≤ 0x1FFF then
    pyIndex p.pattern_table (address &&& 0x0FFF)
  else if (0x2000 ≤ address ∧ address ≤ 0x3EFF) ∧ p.cart.isSome then
    let address := address &&& 0x0FFF
    match p.cart with
    | some c =>
      if c.mirror = MIRROR.HORIZONTAL ∧ 0x0000 ≤ address ∧ address ≤ 0x07FF then
        pyIndex p.name_table (address &&& 0x03FF)
      else if c.mirror = MIRROR.HORIZONTAL ∧ 0x0800 ≤ address ∧ address ≤ 0x0FFF then
        pyIndex p.name_table (address &&& 0x03FF)
      else if c.mirror = MIRROR.VERTICAL ∧
          ((0x0000 ≤ address ∧ address ≤ 0x03FF) ∨ (0x0800 ≤ address ∧ address ≤ 0x0BFF)) then
        pyIndex p.name_table (address &&& 0x03FF)
      else if c.mirror = MIRROR.VERTICAL ∧
          ((0x0400 ≤ address ∧ address ≤ 0x07FF) ∨ (0x0C00 ≤ address ∧ address ≤ 0x0FFF)) then
        pyIndex p.name_table (address &&& 0x03FF)
      else PPU.busReadTail p address
    | none => PPU.busReadTail p address
  else PPU.busReadTail p address

/-- `PPU.write`: the externally visible register ports.  Only the
controller (0), mask (1) and data (7) ports do anything; the data port
forwards to the internal bus and then advances `address_reg` by 32 or 1
depending on the controller's increment-mode flag. -/
def PPU.write (p : PPUState) (address data : Int) : Except String PPUState :=
  if address = 0x0000 then Except.ok { p with controller_reg := data }
  else if address = 0x0001 then Except.ok { p with mask_reg := data }
  else if address = 0x0007 then do
    let p ← PPU.busWrite p p.address_reg data
    Except.ok { p with address_reg :=
      p.address_reg + (if getFlagBit p.controller_reg PPU.CONTROLLER_IM then 32 else 1) }
  else Except.ok p

/-- `PPU.read`: register ports.  A non-peek read of the status port
returns the status top bits over the stale data-register bottom bits and
clears the vertical-blank flag; a non-peek read of the data port is the
buffered PPU-bus read with its palette-range bypass. -/
def PPU.read (p : PPUState) (address : Int) (read_only : Bool) :
    Except String (Int × PPUState) :=
  if address = 0x0000 ∧ read_only then Except.ok (p.controller_reg, p)
  else if address = 0x0001 ∧ read_only then Except.ok (p.mask_reg, p)
  else if address = 0x0002 then
    if read_only then Except.ok (p.status_reg, p)
    else
      let temp := (p.status_reg &&& 0xE0) ||| (p.data_reg &&& 0x1F)
      let p := { p with status_reg := setFlagBit p.status_reg PPU.STATUS_VB false }
      Except.ok (temp, p)
  else if address = 0x0007 ∧ ¬read_only then do
    let temp := p.data_reg
    let d ← PPU.busRead p p.address_reg
    let p := { p with data_reg := d }
    let temp := if 0x3F00 ≤ p.address_reg then p.data_reg else temp
    let p := { p with address_reg :=
      p.address_reg + (if getFlagBit p.controller_reg PPU.CONTROLLER_IM then 32 else 1) }
    Except.ok (temp, p)
  else Except.ok (0x00, p)

/-! ## Bus (src/nes/bus.py)

The Python `Bus` also owns the `CPU` object (with a back-reference from
the CPU to the bus).  To avoid the reference cycle the CPU state is kept
in a separate structure and every CPU method takes and returns the pair
(CPU state, bus) — the same call pattern the spec's design notes
recommend. -/

structure Bus where
  ram : Array Int
  ppu : PPUState
  cart : Option Cartridge
  system_clock_count : Int
deriving DecidableEq

/-- `Bus.__init__`: 2048 bytes of RAM, a fresh PPU, no cartridge. -/
def Bus.init : Bus where
  ram := Array.mkArray 2048 0x00
  ppu := PPU.init
  cart := none
  system_clock_count := 0

/-- `Bus.insert_cartridge`: attach the cartridge to the main bus and to
the PPU bus. -/
def Bus.insert_cartridge (b : Bus) (c : Cartridge) : Bus :=
  { b with cart := some c, ppu := { b.ppu with cart := some c } }

/-- `Bus.write`: RAM (mirrored every 2 KB) for `0x0000..0x1FFF`, PPU
ports (mirrored every 8 bytes) for `0x2000..0x3FFF`, else the cartridge
if present, else silently dropped. -/
def Bus.write (b : Bus) (address data : Int) : Except String Bus :=
  if 0x0000 ≤ address ∧ address ≤ 0x1FFF then do
    let r ← pySet b.ram (address &&& 0x07FF) data
    Except.ok { b with ram := r }
  else if 0x2000 ≤ address ∧ address ≤ 0x3FFF then do
    let p ← PPU.write b.ppu (address &&& 0x0007) data
    Except.ok { b with ppu := p }
  else
    match b.cart with
    | some c => do
        let c' ← Cartridge.write c address data
        Except.ok { b with cart := some c' }
    | none => Except.ok b

/-- `Bus.read`: same routing as `Bus.write`; unmapped addresses read as
`0x00`. -/
def Bus.read (b : Bus) (address : Int) (read_only : Bool) :
    Except String (Int × Bus) :=
  if 0x0000 ≤ address ∧ address ≤ 0x1FFF then do
    let v ← pyIndex b.ram (address &&& 0x07FF)
    Except.ok (v, b)
  else if 0x2000 ≤ address ∧ address ≤ 0x3FFF then do
    let (v, p) ← PPU.read b.ppu (address &&& 0x0007) read_only
    Except.ok (v, { b with ppu := p })
  else
    match b.cart with
    | some c => do
        let v ← Cartridge.read c address
        Except.ok (v, b)
    | none => Except.ok (0x00, b)

/-! ## CPU (src/nes/cpu.py) -/

/-- The CPU registers and helper variables of `CPU.__init__`. -/
structure CPUState where
  a_reg : Int
  x_reg : Int
  y_reg : Int
  sp_reg : Int
  pc_reg : Int
  status_reg : Int
  address : Int
  opcode : Int
  cycles : Int
  clock_count : Int
deriving DecidableEq

/-- `CPU.__init__` register values. -/
def CPU.init : CPUState where
  a_reg := 0x00
  x_reg := 0x00
  y_reg := 0x00
  sp_reg := 0xFD
  pc_reg := 0x0000
  status_reg := 0x34
  address := 0x0000
  opcode := 0x00
  cycles := 0
  clock_count := 0

/-- The status-register flag masks `CPU.FLAGS`. -/
def FLAGS.C : Int := (1 : Int) <<< (0 : Int)
def FLAGS.Z : Int := (1 : Int) <<< (1 : Int)
def FLAGS.I : Int := (1 : Int) <<< (2 : Int)
def FLAGS.D : Int := (1 : Int) <<< (3 : Int)
def FLAGS.B : Int := (1 : Int) <<< (4 : Int)
def FLAGS.U : Int := (1 : Int) <<< (5 : Int)
def FLAGS.V : Int := (1 : Int) <<< (6 : Int)
def FLAGS.N : Int := (1 : Int) <<< (7 : Int)

/-- `CPU._read` — a bus read with `read_only` left at its default
`False`. -/
def cpuRead (b : Bus) (address : Int) : Except String (Int × Bus) :=
  Bus.read b address false

/-- `CPU._write` — a bus write. -/
def cpuWrite (b : Bus) (address value : Int) : Except String Bus :=
  Bus.write b address value

/-- The per-opcode dispatch tags for the 13 addressing-mode callables. -/
inductive AmTag where
  | IMP | ACC | IMM | ZP0 | ZPX | ZPY | REL | ABS | ABX | ABY | IND | IZX | IZY
deriving DecidableEq

/-- The per-opcode dispatch tags for the 57 operation callables. -/
inductive OpTag where
  | ADC | AND | ASL | BCC | BCS | BEQ | BIT | BMI | BNE | BPL | BRK | BVC | BVS
  | CLC | CLD | CLI | CLV | CMP | CPX | CPY | DEC | DEX | DEY | EOR | INC | INX
  | INY | JMP | JSR | LDA | LDX | LDY | LSR | NOP | ORA | PHA | PHP | PLA | PLP
  | ROL | ROR | RTI | RTS | SBC | SEC | SED | SEI | STA | STX | STY | TAX | TAY
  | TSX | TXA | TXS | TYA | XXX
deriving DecidableEq

/-- `CPU.INSTRUCTION`: one entry of the opcode table. -/
structure INSTRUCTION where
  name : String
  operate : OpTag
  address_mode : AmTag
  cycles : Int
deriving DecidableEq

/-- The result type of every addressing-mode and operation callable:
the returned extra-cycle int, the updated CPU state and the updated
bus. -/
abbrev CpuStep := Except String (Int × CPUState × Bus)

/-- `CPU._IMP`. -/
def CPU.amIMP (s : CPUState) (b : Bus) : CpuStep := Except.ok (0, s, b)

/-- `CPU._ACC`. -/
def CPU.amACC (s : CPUState) (b : Bus) : CpuStep := Except.ok (0, s, b)

/-- `CPU._IMM`. -/
def CPU.amIMM (s : CPUState) (b : Bus) : CpuStep :=
  let s := { s with address := s.pc_reg }
  let s := { s with pc_reg := s.pc_reg + 1 }
  Except.ok (0, s, b)

/-- `CPU._ZP0`. -/
def CPU.amZP0 (s : CPUState) (b : Bus) : CpuStep := do
  let (v, b) ← cpuRead b s.pc_reg
  let s := { s with address := v }
  let s := { s with pc_reg := s.pc_reg + 1 }
  let s := { s with address := s.address &&& 0x00FF }
  Except.ok (0, s, b)

/-- `CPU._ZPX`. -/
def CPU.amZPX (s : CPUState) (b : Bus) : CpuStep := do
  let (v, b) ← cpuRead b s.pc_reg
  let s := { s with address := v + s.x_reg }
  let s := { s with pc_reg := s.pc_reg + 1 }
  let s := { s with address := s.address &&& 0x00FF }
  Except.ok (0, s, b)

/-- `CPU._ZPY`. -/
def CPU.amZPY (s : CPUState) (b : Bus) : CpuStep := do
  let (v, b) ← cpuRead b s.pc_reg
  let s := { s with address := v + s.y_reg }
  let s := { s with pc_reg := s.pc_reg + 1 }
  let s := { s with address := s.address &&& 0x00FF }
  Except.ok (0, s, b)

/-- `CPU._REL`: sign-extend the fetched displacement, add the post-fetch
PC, and signal 2 on a page difference, else 1. -/
def CPU.amREL (s : CPUState) (b : Bus) : CpuStep := do
  let (v, b) ← cpuRead b s.pc_reg
  let s := { s with address := v }
  let s := { s with pc_reg := s.pc_reg + 1 }
  let s :=
    if (s.address &&& (0x80 : Int)) ≠ 0 then { s with address := s.address ||| 0xFF00 } else s
  let s := { s with address := s.address + s.pc_reg }
  if (s.address &&& 0xFF00) ≠ (s.pc_reg &&& 0xFF00) then Except.ok (2, s, b)
  else Except.ok (1, s, b)

/-- `CPU._ABS`. -/
def CPU.amABS (s : CPUState) (b : Bus) : CpuStep := do
  let (lo, b) ← cpuRead b s.pc_reg
  let s := { s with address := lo }
  let s := { s with pc_reg := s.pc_reg + 1 }
  let (hi, b) ← cpuRead b s.pc_reg
  let s := { s with address := s.address ||| (hi <<< (8 : Int)) }
  let s := { s with pc_reg := s.pc_reg + 1 }
  Except.ok (0, s, b)

/-- `CPU._ABX`: absolute plus X, signalling 1 when the addition crosses
a page. -/
def CPU.amABX (s : CPUState) (b : Bus) : CpuStep := do
  let (lo, b) ← cpuRead b s.pc_reg
  let s := { s with address := lo }
  let s := { s with pc_reg := s.pc_reg + 1 }
  let (hi, b) ← cpuRead b s.pc_reg
  let s := { s with address := s.address ||| (hi <<< (8 : Int)) }
  let s := { s with pc_reg := s.pc_reg + 1 }
  let h := s.address &&& 0xFF00
  let s := { s with address := s.address + s.x_reg }
  if (s.address &&& 0xFF00) ≠ h then Except.ok (1, s, b) else Except.ok (0, s, b)

/-- `CPU._ABY`: absolute plus Y, signalling 1 when the addition crosses
a page. -/
def CPU.amABY (s : CPUState) (b : Bus) : CpuStep := do
  let (lo, b) ← cpuRead b s.pc_reg
  let s := { s with address := lo }
  let s := { s with pc_reg := s.pc_reg + 1 }
  let (hi, b) ← cpuRead b s.pc_reg
  let s := { s with address := s.address ||| (hi <<< (8 : Int)) }
  let s := { s with pc_reg := s.pc_reg + 1 }
  let h := s.address &&& 0xFF00
  let s := { s with address := s.address + s.y_reg }
  if (s.address &&& 0xFF00) ≠ h then Except.ok (1, s, b) else Except.ok (0, s, b)

/-- `CPU._IND`: read a two-byte pointer, then the operand address from
that pointer, with the hardware page-boundary bug: a pointer whose low
byte is `0xFF` takes its high byte from `ptr & 0xFF00` instead of
`ptr + 1`. -/
def CPU.amIND (s : CPUState) (b : Bus) : CpuStep := do
  let (plo, b) ← cpuRead b s.pc_reg
  let ptr := plo
  let s := { s with pc_reg := s.pc_reg + 1 }
  let (phi, b) ← cpuRead b s.pc_reg
  let ptr := ptr ||| (phi <<< (8 : Int))
  let s := { s with pc_reg := s.pc_reg + 1 }
  let (lo, b) ← cpuRead b ptr
  let s := { s with address := lo }
  let (hi, b) ← cpuRead b (if (ptr &&& 0x00FF) = 0x00FF then ptr &&& 0xFF00 else ptr + 1)
  let s := { s with address := s.address ||| (hi <<< (8 : Int)) }
  Except.ok (0, s, b)

/-- `CPU._IZX`. -/
def CPU.amIZX (s : CPUState) (b : Bus) : CpuStep := do
  let (v, b) ← cpuRead b s.pc_reg
  let ptr := v + s.x_reg
  let s := { s with pc_reg := s.pc_reg + 1 }
  let (lo, b) ← cpuRead b (ptr &&& 0x00FF)
  let s := { s with address := lo }
  let (hi, b) ← cpuRead b ((ptr + 1) &&& 0x00FF)
  let s := { s with address := s.address ||| (hi <<< (8 : Int)) }
  Except.ok (0, s, b)

/-- `CPU._IZY`: zero-page pointer plus Y, signalling 1 on a page
cross. -/
def CPU.amIZY (s : CPUState) (b : Bus) : CpuStep := do
  let (v, b) ← cpuRead b s.pc_reg
  let ptr := v
  let s := { s with pc_reg := s.pc_reg + 1 }
  let (lo, b) ← cpuRead b (ptr &&& 0x00FF)
  let s := { s with address := lo }
  let (hi, b) ← cpuRead b ((ptr + 1) &&& 0x00FF)
  let s := { s with address := s.address ||| (hi <<< (8 : Int)) }
  let h := s.address &&& 0xFF00
  let s := { s with address := s.address + s.y_reg }
  if (s.address &&& 0xFF00) ≠ h then Except.ok (1, s, b) else Except.ok (0, s, b)

set_option maxHeartbeats 800000 in
/-- The opcode table `CPU._lookup`: 256 entries of
mnemonic, operation tag, addressing-mode tag and base cycles. -/
def CPU.lookup : Array INSTRUCTION := #[
  INSTRUCTION.mk "BRK" OpTag.BRK AmTag.IMM 7, INSTRUCTION.mk "ORA" OpTag.ORA AmTag.IZX 6,
  INSTRUCTION.mk "???" OpTag.XXX AmTag.IMP 2, INSTRUCTION.mk "???" OpTag.XXX AmTag.IMP 8,
  INSTRUCTION.mk "???" OpTag.NOP AmTag.IMP 3, INSTRUCTION.mk "ORA" OpTag.ORA AmTag.ZP0 3,
  INSTRUCTION.mk "ASL" OpTag.ASL AmTag.ZP0 5, INSTRUCTION.mk "???" OpTag.XXX AmTag.IMP 5,
  INSTRUCTION.mk "PHP" OpTag.PHP AmTag.IMP 3, INSTRUCTION.mk "ORA" OpTag.ORA AmTag.IMM 2,
  INSTRUCTION.mk "ASL" OpTag.ASL AmTag.ACC 2, INSTRUCTION.mk "???" OpTag.XXX AmTag.IMP 2,
  INSTRUCTION.mk "???" OpTag.NOP AmTag.IMP 4, INSTRUCTION.mk "ORA" OpTag.ORA AmTag.ABS 4,
  INSTRUCTION.mk "ASL" OpTag.ASL AmTag.ABS 6, INSTRUCTION.mk "???" OpTag.XXX AmTag.IMP 6,
  INSTRUCTION.mk "BPL" OpTag.BPL AmTag.REL 2, INSTRUCTION.mk "ORA" OpTag.ORA AmTag.IZY 5,
  INSTRUCTION.mk "???" OpTag.XXX AmTag.IMP 2, INSTRUCTION.mk "???" OpTag.XXX AmTag.IMP 8,
  INSTRUCTION.mk "???" OpTag.NOP AmTag.IMP 4, INSTRUCTION.mk "ORA" OpTag.ORA AmTag.ZPX 4,
  INSTRUCTION.mk "ASL" OpTag.ASL AmTag.ZPX 6, INSTRUCTION.mk "???" OpTag.XXX AmTag.IMP 6,
  INSTRUCTION.mk "CLC" OpTag.CLC AmTag.IMP 2, INSTRUCTION.mk "ORA" OpTag.ORA AmTag.ABY 4,
  INSTRUCTION.mk "???" OpTag.NOP AmTag.IMP 2, INSTRUCTION.mk "???" OpTag.XXX AmTag.IMP 7,
  INSTRUCTION.mk "???" OpTag.NOP AmTag.IMP 4, INSTRUCTION.mk "ORA" OpTag.ORA AmTag.ABX 4,
  INSTRUCTION.mk "ASL" OpTag.ASL AmTag.ABX 7, INSTRUCTION.mk "???" OpTag.XXX AmTag.IMP 7,
  INSTRUCTION.mk "JSR" OpTag.JSR AmTag.ABS 6, INSTRUCTION.mk "AND" OpTag.AND AmTag.IZX 6,
  INSTRUCTION.mk "???" OpTag.XXX AmTag.IMP 2, INSTRUCTION.mk "???" OpTag.XXX AmTag.IMP 8,
  INSTRUCTION.mk "BIT" OpTag.BIT AmTag.ZP0 3, INSTRUCTION.mk "AND" OpTag.AND AmTag.ZP0 3,
  INSTRUCTION.mk "ROL" OpTag.ROL AmTag.ZP0 5, INSTRUCTION.mk "???" OpTag.XXX AmTag.IMP 5,
  INSTRUCTION.mk "PLP" OpTag.PLP AmTag.IMP 4, INSTRUCTION.mk "AND" OpTag.AND AmTag.IMM 2,
  INSTRUCTION.mk "ROL" OpTag.ROL AmTag.ACC 2, INSTRUCTION.mk "???" OpTag.XXX AmTag.IMP 2,
  INSTRUCTION.mk "BIT" OpTag.BIT AmTag.ABS 4, INSTRUCTION.mk "AND" OpTag.AND AmTag.ABS 4,
  INSTRUCTION.mk "ROL" OpTag.ROL AmTag.ABS 6, INSTRUCTION.mk "???" OpTag.XXX AmTag.IMP 6,
  INSTRUCTION.mk "BMI" OpTag.BMI AmTag.REL 2, INSTRUCTION.mk "AND" OpTag.AND AmTag.IZY 5,
  INSTRUCTION.mk "???" OpTag.XXX AmTag.IMP 2, INSTRUCTION.mk "???" OpTag.XXX AmTag.IMP 8,
  INSTRUCTION.mk "???" OpTag.NOP AmTag.IMP 4, INSTRUCTION.mk "AND" OpTag.AND AmTag.ZPX 4,
  INSTRUCTION.mk "ROL" OpTag.ROL AmTag.ZPX 6, INSTRUCTION.mk "???" OpTag.XXX AmTag.IMP 6,
  INSTRUCTION.mk "SEC" OpTag.SEC AmTag.IMP 2, INSTRUCTION.mk "AND" OpTag.AND AmTag.ABY 4,
  INSTRUCTION.mk "???" OpTag.NOP AmTag.IMP 2, INSTRUCTION.mk "???" OpTag.XXX AmTag.IMP 7,
  INSTRUCTION.mk "???" OpTag.NOP AmTag.IMP 4, INSTRUCTION.mk "AND" OpTag.AND AmTag.ABX 4,
  INSTRUCTION.mk "ROL" OpTag.ROL AmTag.ABX 7, INSTRUCTION.mk "???" OpTag.XXX AmTag.IMP 7,
  INSTRUCTION.mk "RTI" OpTag.RTI AmTag.IMP 6, INSTRUCTION.mk "EOR" OpTag.EOR AmTag.IZX 6,
  INSTRUCTION.mk "???" OpTag.XXX AmTag.IMP 2, INSTRUCTION.mk "???" OpTag.XXX AmTag.IMP 8,
  INSTRUCTION.mk "???" OpTag.NOP AmTag.IMP 3, INSTRUCTION.mk "EOR" OpTag.EOR AmTag.ZP0 3,
  INSTRUCTION.mk "LSR" OpTag.LSR AmTag.ZP0 5, INSTRUCTION.mk "???" OpTag.XXX AmTag.IMP 5,
  INSTRUCTION.mk "PHA" OpTag.PHA AmTag.IMP 3, INSTRUCTION.mk "EOR" OpTag.EOR AmTag.IMM 2,
  INSTRUCTION.mk "LSR" OpTag.LSR AmTag.ACC 2, INSTRUCTION.mk "???" OpTag.XXX AmTag.IMP 2,
  INSTRUCTION.mk "JMP" OpTag.JMP AmTag.ABS 3, INSTRUCTION.mk "EOR" OpTag.EOR AmTag.ABS 4,
  INSTRUCTION.mk "LSR" OpTag.LSR AmTag.ABS 6, INSTRUCTION.mk "???" OpTag.XXX AmTag.IMP 6,
  INSTRUCTION.mk "BVC" OpTag.BVC AmTag.REL 2, INSTRUCTION.mk "EOR" OpTag.EOR AmTag.IZY 5,
  INSTRUCTION.mk "???" OpTag.XXX AmTag.IMP 2, INSTRUCTION.mk "???" OpTag.XXX AmTag.IMP 8,
  INSTRUCTION.mk "???" OpTag.NOP AmTag.IMP 4, INSTRUCTION.mk "EOR" OpTag.EOR AmTag.ZPX 4,
  INSTRUCTION.mk "LSR" OpTag.LSR AmTag.ZPX 6, INSTRUCTION.mk "???" OpTag.XXX AmTag.IMP 6,
  INSTRUCTION.mk "CLI" OpTag.CLI AmTag.IMP 2, INSTRUCTION.mk "EOR" OpTag.EOR AmTag.ABY 4,
  INSTRUCTION.mk "???" OpTag.NOP AmTag.IMP 2, INSTRUCTION.mk "???" OpTag.XXX AmTag.IMP 7,
  INSTRUCTION.mk "???" OpTag.NOP AmTag.IMP 4, INSTRUCTION.mk "EOR" OpTag.EOR AmTag.ABX 4,
  INSTRUCTION.mk "LSR" OpTag.LSR AmTag.ABX 7, INSTRUCTION.mk "???" OpTag.XXX AmTag.IMP 7,
  INSTRUCTION.mk "RTS" OpTag.RTS AmTag.IMP 6, INSTRUCTION.mk "ADC" OpTag.ADC AmTag.IZX 6,
  INSTRUCTION.mk "???" OpTag.XXX AmTag.IMP 2, INSTRUCTION.mk "???" OpTag.XXX AmTag.IMP 8,
  INSTRUCTION.mk "???" OpTag.NOP AmTag.IMP 3, INSTRUCTION.mk "ADC" OpTag.ADC AmTag.ZP0 3,
  INSTRUCTION.mk "ROR" OpTag.ROR AmTag.ZP0 5, INSTRUCTION.mk "???" OpTag.XXX AmTag.IMP 5,
  INSTRUCTION.mk "PLA" OpTag.PLA AmTag.IMP 4, INSTRUCTION.mk "ADC" OpTag.ADC AmTag.IMM 2,
  INSTRUCTION.mk "ROR" OpTag.ROR AmTag.ACC 2, INSTRUCTION.mk "???" OpTag.XXX AmTag.IMP 2,
  INSTRUCTION.mk "JMP" OpTag.JMP AmTag.IND 5, INSTRUCTION.mk "ADC" OpTag.ADC AmTag.ABS 4,
  INSTRUCTION.mk "ROR" OpTag.ROR AmTag.ABS 6, INSTRUCTION.mk "???" OpTag.XXX AmTag.IMP 6,
  INSTRUCTION.mk "BVS" OpTag.BVS AmTag.REL 2, INSTRUCTION.mk "ADC" OpTag.ADC AmTag.IZY 5,
  INSTRUCTION.mk "???" OpTag.XXX AmTag.IMP 2, INSTRUCTION.mk "???" OpTag.XXX AmTag.IMP 8,
  INSTRUCTION.mk "???" OpTag.NOP AmTag.IMP 4, INSTRUCTION.mk "ADC" OpTag.ADC AmTag.ZPX 4,
  INSTRUCTION.mk "ROR" OpTag.ROR AmTag.ZPX 6, INSTRUCTION.mk "???" OpTag.XXX AmTag.IMP 6,
  INSTRUCTION.mk "SEI" OpTag.SEI AmTag.IMP 2, INSTRUCTION.mk "ADC" OpTag.ADC AmTag.ABY 4,
  INSTRUCTION.mk "???" OpTag.NOP AmTag.IMP 2, INSTRUCTION.mk "???" OpTag.XXX AmTag.IMP 7,
  INSTRUCTION.mk "???" OpTag.NOP AmTag.IMP 4, INSTRUCTION.mk "ADC" OpTag.ADC AmTag.ABX 4,
  INSTRUCTION.mk "ROR" OpTag.ROR AmTag.ABX 7, INSTRUCTION.mk "???" OpTag.XXX AmTag.IMP 7,
  INSTRUCTION.mk "???" OpTag.NOP AmTag.IMP 2, INSTRUCTION.mk "STA" OpTag.STA AmTag.IZX 6,
  INSTRUCTION.mk "???" OpTag.NOP AmTag.IMP 2, INSTRUCTION.mk "???" OpTag.XXX AmTag.IMP 6,
  INSTRUCTION.mk "STY" OpTag.STY AmTag.ZP0 3, INSTRUCTION.mk "STA" OpTag.STA AmTag.ZP0 3,
  INSTRUCTION.mk "STX" OpTag.STX AmTag.ZP0 3, INSTRUCTION.mk "???" OpTag.XXX AmTag.IMP 3,
  INSTRUCTION.mk "DEY" OpTag.DEY AmTag.IMP 2, INSTRUCTION.mk "???" OpTag.NOP AmTag.IMP 2,
  INSTRUCTION.mk "TXA" OpTag.TXA AmTag.IMP 2, INSTRUCTION.mk "???" OpTag.XXX AmTag.IMP 2,
  INSTRUCTION.mk "STY" OpTag.STY AmTag.ABS 4, INSTRUCTION.mk "STA" OpTag.STA AmTag.ABS 4,
  INSTRUCTION.mk "STX" OpTag.STX AmTag.ABS 4, INSTRUCTION.mk "???" OpTag.XXX AmTag.IMP 4,
  INSTRUCTION.mk "BCC" OpTag.BCC AmTag.REL 2, INSTRUCTION.mk "STA" OpTag.STA AmTag.IZY 6,
  INSTRUCTION.mk "???" OpTag.XXX AmTag.IMP 2, INSTRUCTION.mk "???" OpTag.XXX AmTag.IMP 6,
  INSTRUCTION.mk "STY" OpTag.STY AmTag.ZPX 4, INSTRUCTION.mk "STA" OpTag.STA AmTag.ZPX 4,
  INSTRUCTION.mk "STX" OpTag.STX AmTag.ZPY 4, INSTRUCTION.mk "???" OpTag.XXX AmTag.IMP 4,
  INSTRUCTION.mk "TYA" OpTag.TYA AmTag.IMP 2, INSTRUCTION.mk "STA" OpTag.STA AmTag.ABY 5,
  INSTRUCTION.mk "TXS" OpTag.TXS AmTag.IMP 2, INSTRUCTION.mk "???" OpTag.XXX AmTag.IMP 5,
  INSTRUCTION.mk "???" OpTag.NOP AmTag.IMP 5, INSTRUCTION.mk "STA" OpTag.STA AmTag.ABX 5,
  INSTRUCTION.mk "???" OpTag.XXX AmTag.IMP 5, INSTRUCTION.mk "???" OpTag.XXX AmTag.IMP 5,
  INSTRUCTION.mk "LDY" OpTag.LDY AmTag.IMM 2, INSTRUCTION.mk "LDA" OpTag.LDA AmTag.IZX 6,
  INSTRUCTION.mk "LDX" OpTag.LDX AmTag.IMM 2, INSTRUCTION.mk "???" OpTag.XXX AmTag.IMP 6,
  INSTRUCTION.mk "LDY" OpTag.LDY AmTag.ZP0 3, INSTRUCTION.mk "LDA" OpTag.LDA AmTag.ZP0 3,
  INSTRUCTION.mk "LDX" OpTag.LDX AmTag.ZP0 3, INSTRUCTION.mk "???" OpTag.XXX AmTag.IMP 3,
  INSTRUCTION.mk "TAY" OpTag.TAY AmTag.IMP 2, INSTRUCTION.mk "LDA" OpTag.LDA AmTag.IMM 2,
  INSTRUCTION.mk "TAX" OpTag.TAX AmTag.IMP 2, INSTRUCTION.mk "???" OpTag.XXX AmTag.IMP 2,
  INSTRUCTION.mk "LDY" OpTag.LDY AmTag.ABS 4, INSTRUCTION.mk "LDA" OpTag.LDA AmTag.ABS 4,
  INSTRUCTION.mk "LDX" OpTag.LDX AmTag.ABS 4, INSTRUCTION.mk "???" OpTag.XXX AmTag.IMP 4,
  INSTRUCTION.mk "BCS" OpTag.BCS AmTag.REL 2, INSTRUCTION.mk "LDA" OpTag.LDA AmTag.IZY 5,
  INSTRUCTION.mk "???" OpTag.XXX AmTag.IMP 2, INSTRUCTION.mk "???" OpTag.XXX AmTag.IMP 5,
  INSTRUCTION.mk "LDY" OpTag.LDY AmTag.ZPX 4, INSTRUCTION.mk "LDA" OpTag.LDA AmTag.ZPX 4,
  INSTRUCTION.mk "LDX" OpTag.LDX AmTag.ZPY 4, INSTRUCTION.mk "???" OpTag.XXX AmTag.IMP 4,
  INSTRUCTION.mk "CLV" OpTag.CLV AmTag.IMP 2, INSTRUCTION.mk "LDA" OpTag.LDA AmTag.ABY 4,
  INSTRUCTION.mk "TSX" OpTag.TSX AmTag.IMP 2, INSTRUCTION.mk "???" OpTag.XXX AmTag.IMP 4,
  INSTRUCTION.mk "LDY" OpTag.LDY AmTag.ABX 4, INSTRUCTION.mk "LDA" OpTag.LDA AmTag.ABX 4,
  INSTRUCTION.mk "LDX" OpTag.LDX AmTag.ABY 4, INSTRUCTION.mk "???" OpTag.XXX AmTag.IMP 4,
  INSTRUCTION.mk "CPY" OpTag.CPY AmTag.IMM 2, INSTRUCTION.mk "CMP" OpTag.CMP AmTag.IZX 6,
  INSTRUCTION.mk "???" OpTag.NOP AmTag.IMP 2, INSTRUCTION.mk "???" OpTag.XXX AmTag.IMP 8,
  INSTRUCTION.mk "CPY" OpTag.CPY AmTag.ZP0 3, INSTRUCTION.mk "CMP" OpTag.CMP AmTag.ZP0 3,
  INSTRUCTION.mk "DEC" OpTag.DEC AmTag.ZP0 5, INSTRUCTION.mk "???" OpTag.XXX AmTag.IMP 5,
  INSTRUCTION.mk "INY" OpTag.INY AmTag.IMP 2, INSTRUCTION.mk "CMP" OpTag.CMP AmTag.IMM 2,
  INSTRUCTION.mk "DEX" OpTag.DEX AmTag.IMP 2, INSTRUCTION.mk "???" OpTag.XXX AmTag.IMP 2,
  INSTRUCTION.mk "CPY" OpTag.CPY AmTag.ABS 4, INSTRUCTION.mk "CMP" OpTag.CMP AmTag.ABS 4,
  INSTRUCTION.mk "DEC" OpTag.DEC AmTag.ABS 6, INSTRUCTION.mk "???" OpTag.XXX AmTag.IMP 6,
  INSTRUCTION.mk "BNE" OpTag.BNE AmTag.REL 2, INSTRUCTION.mk "CMP" OpTag.CMP AmTag.IZY 5,
  INSTRUCTION.mk "???" OpTag.XXX AmTag.IMP 2, INSTRUCTION.mk "???" OpTag.XXX AmTag.IMP 8,
  INSTRUCTION.mk "???" OpTag.NOP AmTag.IMP 4, INSTRUCTION.mk "CMP" OpTag.CMP AmTag.ZPX 4,
  INSTRUCTION.mk "DEC" OpTag.DEC AmTag.ZPX 6, INSTRUCTION.mk "???" OpTag.XXX AmTag.IMP 6,
  INSTRUCTION.mk "CLD" OpTag.CLD AmTag.IMP 2, INSTRUCTION.mk "CMP" OpTag.CMP AmTag.ABY 4,
  INSTRUCTION.mk "NOP" OpTag.NOP AmTag.IMP 2, INSTRUCTION.mk "???" OpTag.XXX AmTag.IMP 7,
  INSTRUCTION.mk "???" OpTag.NOP AmTag.IMP 4, INSTRUCTION.mk "CMP" OpTag.CMP AmTag.ABX 4,
  INSTRUCTION.mk "DEC" OpTag.DEC AmTag.ABX 7, INSTRUCTION.mk "???" OpTag.XXX AmTag.IMP 7,
  INSTRUCTION.mk "CPX" OpTag.CPX AmTag.IMM 2, INSTRUCTION.mk "SBC" OpTag.SBC AmTag.IZX 6,
  INSTRUCTION.mk "???" OpTag.NOP AmTag.IMP 2, INSTRUCTION.mk "???" OpTag.XXX AmTag.IMP 8,
  INSTRUCTION.mk "CPX" OpTag.CPX AmTag.ZP0 3, INSTRUCTION.mk "SBC" OpTag.SBC AmTag.ZP0 3,
  INSTRUCTION.mk "INC" OpTag.INC AmTag.ZP0 5, INSTRUCTION.mk "???" OpTag.XXX AmTag.IMP 5,
  INSTRUCTION.mk "INX" OpTag.INX AmTag.IMP 2, INSTRUCTION.mk "SBC" OpTag.SBC AmTag.IMM 2,
  INSTRUCTION.mk "NOP" OpTag.NOP AmTag.IMP 2, INSTRUCTION.mk "???" OpTag.SBC AmTag.IMP 2,
  INSTRUCTION.mk "CPX" OpTag.CPX AmTag.ABS 4, INSTRUCTION.mk "SBC" OpTag.SBC AmTag.ABS 4,
  INSTRUCTION.mk "INC" OpTag.INC AmTag.ABS 6, INSTRUCTION.mk "???" OpTag.XXX AmTag.IMP 6,
  INSTRUCTION.mk "BEQ" OpTag.BEQ AmTag.REL 2, INSTRUCTION.mk "SBC" OpTag.SBC AmTag.IZY 5,
  INSTRUCTION.mk "???" OpTag.XXX AmTag.IMP 2, INSTRUCTION.mk "???" OpTag.XXX AmTag.IMP 8,
  INSTRUCTION.mk "???" OpTag.NOP AmTag.IMP 4, INSTRUCTION.mk "SBC" OpTag.SBC AmTag.ZPX 4,
  INSTRUCTION.mk "INC" OpTag.INC AmTag.ZPX 6, INSTRUCTION.mk "???" OpTag.XXX AmTag.IMP 6,
  INSTRUCTION.mk "SED" OpTag.SED AmTag.IMP 2, INSTRUCTION.mk "SBC" OpTag.SBC AmTag.ABY 4,
  INSTRUCTION.mk "NOP" OpTag.NOP AmTag.IMP 2, INSTRUCTION.mk "???" OpTag.XXX AmTag.IMP 7,
  INSTRUCTION.mk "???" OpTag.NOP AmTag.IMP 4, INSTRUCTION.mk "SBC" OpTag.SBC AmTag.ABX 4,
  INSTRUCTION.mk "INC" OpTag.INC AmTag.ABX 7, INSTRUCTION.mk "???" OpTag.XXX AmTag.IMP 7]

/-- `self._lookup[self._opcode]` — a Python list index. -/
def CPU.lookupInst (opcode : Int) : Except String INSTRUCTION :=
  pyIndex CPU.lookup opcode

/-- `CPU._ADC`: `A = A + M + C`, flags C, V, Z, N. -/
def CPU.opADC (s : CPUState) (b : Bus) : CpuStep := do
  let (m, b) ← cpuRead b s.address
  let temp := s.a_reg + m + boolInt (getFlagBit s.status_reg FLAGS.C)
  let s := { s with status_reg := setFlagBit s.status_reg FLAGS.C (decide (0xFF < temp)) }
  let v_set := decide (0 < ((~~~(s.a_reg ^^^ m) &&& (s.a_reg ^^^ temp)) &&& (0x0080 : Int)))
  let s := { s with status_reg := setFlagBit s.status_reg FLAGS.V v_set }
  let s := { s with a_reg := temp &&& 0x00FF }
  let s := { s with status_reg := setFlagBit s.status_reg FLAGS.Z (decide (s.a_reg = 0x00)) }
  let s := { s with status_reg := setFlagBit s.status_reg FLAGS.N (decide (0 < (s.a_reg &&& (0x80 : Int)))) }
  Except.ok (1, s, b)

/-- `CPU._AND`: `A = A & M`, flags Z, N. -/
def CPU.opAND (s : CPUState) (b : Bus) : CpuStep := do
  let (m, b) ← cpuRead b s.address
  let s := { s with a_reg := s.a_reg &&& m }
  let s := { s with status_reg := setFlagBit s.status_reg FLAGS.Z (decide (s.a_reg = 0x00)) }
  let s := { s with status_reg := setFlagBit s.status_reg FLAGS.N (decide (0 < (s.a_reg &&& (0x80 : Int)))) }
  Except.ok (1, s, b)

/-- `CPU._ASL`: arithmetic shift left of the accumulator or of memory
(the target is the accumulator exactly when the opcode's table entry
uses the accumulator addressing mode). -/
def CPU.opASL (s : CPUState) (b : Bus) : CpuStep := do
  let inst ← CPU.lookupInst s.opcode
  let a_mode := inst.address_mode = AmTag.ACC
  let (m, b) ← if a_mode then pure (s.a_reg, b) else cpuRead b s.address
  let m := m <<< (1 : Int)
  let s := { s with status_reg := setFlagBit s.status_reg FLAGS.C (decide (0 < (m &&& (0xFF00 : Int)))) }
  let m := m &&& 0x00FF
  let s := { s with status_reg := setFlagBit s.status_reg FLAGS.Z (decide (m = 0x00)) }
  let s := { s with status_reg := setFlagBit s.status_reg FLAGS.N (decide (0 < (m &&& (0x80 : Int)))) }
  if a_mode then Except.ok (0, { s with a_reg := m }, b)
  else do
    let b ← cpuWrite b s.address m
    Except.ok (0, s, b)

/-- `CPU._BCC`. -/
def CPU.opBCC (s : CPUState) (b : Bus) : CpuStep :=
  if ¬ getFlagBit s.status_reg FLAGS.C then Except.ok (2, { s with pc_reg := s.address }, b)
  else Except.ok (0, s, b)

/-- `CPU._BCS`. -/
def CPU.opBCS (s : CPUState) (b : Bus) : CpuStep :=
  if getFlagBit s.status_reg FLAGS.C then Except.ok (2, { s with pc_reg := s.address }, b)
  else Except.ok (0, s, b)

/-- `CPU._BEQ`. -/
def CPU.opBEQ (s : CPUState) (b : Bus) : CpuStep :=
  if getFlagBit s.status_reg FLAGS.Z then Except.ok (2, { s with pc_reg := s.address }, b)
  else Except.ok (0, s, b)

/-- `CPU._BIT`: `Z = (A & M) == 0`, `V = M6`, `N = M7`. -/
def CPU.opBIT (s : CPUState) (b : Bus) : CpuStep := do
  let (m, b) ← cpuRead b s.address
  let s := { s with status_reg := setFlagBit s.status_reg FLAGS.Z (decide ((s.a_reg &&& m) = 0x00)) }
  let s := { s with status_reg := setFlagBit s.status_reg FLAGS.V (decide (0 < (m &&& (0x40 : Int)))) }
  let s := { s with status_reg := setFlagBit s.status_reg FLAGS.N (decide (0 < (m &&& (0x80 : Int)))) }
  Except.ok (0, s, b)

/-- `CPU._BMI`. -/
def CPU.opBMI (s : CPUState) (b : Bus) : CpuStep :=
  if getFlagBit s.status_reg FLAGS.N then Except.ok (2, { s with pc_reg := s.address }, b)
  else Except.ok (0, s, b)

/-- `CPU._BNE`. -/
def CPU.opBNE (s : CPUState) (b : Bus) : CpuStep :=
  if ¬ getFlagBit s.status_reg FLAGS.Z then Except.ok (2, { s with pc_reg := s.address }, b)
  else Except.ok (0, s, b)

/-- `CPU._BPL`. -/
def CPU.opBPL (s : CPUState) (b : Bus) : CpuStep :=
  if ¬ getFlagBit s.status_reg FLAGS.N then Except.ok (2, { s with pc_reg := s.address }, b)
  else Except.ok (0, s, b)

/-- `CPU._BRK`: program-sourced interrupt. -/
def CPU.opBRK (s : CPUState) (b : Bus) : CpuStep := do
  let s := { s with pc_reg := s.pc_reg + 1 }
  let b ← cpuWrite b (0x0100 + s.sp_reg) ((s.pc_reg >>> (8 : Int)) &&& 0x00FF)
  let s := { s with sp_reg := s.sp_reg - 1 }
  let b ← cpuWrite b (0x0100 + s.sp_reg) (s.pc_reg &&& 0x00FF)
  let s := { s with sp_reg := s.sp_reg - 1 }
  let s := { s with status_reg := setFlagBit s.status_reg FLAGS.B true }
  let b ← cpuWrite b (0x0100 + s.sp_reg) s.status_reg
  let s := { s with sp_reg := s.sp_reg - 1 }
  let (lo, b) ← cpuRead b 0xFFFE
  let s := { s with pc_reg := lo }
  let (hi, b) ← cpuRead b 0xFFFF
  let s := { s with pc_reg := s.pc_reg ||| (hi <<< (8 : Int)) }
  Except.ok (0, s, b)

/-- `CPU._BVC`. -/
def CPU.opBVC (s : CPUState) (b : Bus) : CpuStep :=
  if ¬ getFlagBit s.status_reg FLAGS.V then Except.ok (2, { s with pc_reg := s.address }, b)
  else Except.ok (0, s, b)

/-- `CPU._BVS`. -/
def CPU.opBVS (s : CPUState) (b : Bus) : CpuStep :=
  if getFlagBit s.status_reg FLAGS.V then Except.ok (2, { s with pc_reg := s.address }, b)
  else Except.ok (0, s, b)

/-- `CPU._CLC`. -/
def CPU.opCLC (s : CPUState) (b : Bus) : CpuStep :=
  Except.ok (0, { s with status_reg := setFlagBit s.status_reg FLAGS.C false }, b)

/-- `CPU._CLD`. -/
def CPU.opCLD (s : CPUState) (b : Bus) : CpuStep :=
  Except.ok (0, { s with status_reg := setFlagBit s.status_reg FLAGS.D false }, b)

/-- `CPU._CLI`. -/
def CPU.opCLI (s : CPUState) (b : Bus) : CpuStep :=
  Except.ok (0, { s with status_reg := setFlagBit s.status_reg FLAGS.I false }, b)

/-- `CPU._CLV`. -/
def CPU.opCLV (s : CPUState) (b : Bus) : CpuStep :=
  Except.ok (0, { s with status_reg := setFlagBit s.status_reg FLAGS.V false }, b)

/-- `CPU._CMP`: compare accumulator, flags C, Z, N; extra-cycle 1. -/
def CPU.opCMP (s : CPUState) (b : Bus) : CpuStep := do
  let (m, b) ← cpuRead b s.address
  let temp := (s.a_reg - m) &&& 0x00FF
  let s := { s with status_reg := setFlagBit s.status_reg FLAGS.C (decide (m ≤ s.a_reg)) }
  let s := { s with status_reg := setFlagBit s.status_reg FLAGS.Z (decide (temp = 0x00)) }
  let s := { s with status_reg := setFlagBit s.status_reg FLAGS.N (decide (0 < (temp &&& (0x80 : Int)))) }
  Except.ok (1, s, b)

/-- `CPU._CPX`. -/
def CPU.opCPX (s : CPUState) (b : Bus) : CpuStep := do
  let (m, b) ← cpuRead b s.address
  let temp := (s.x_reg - m) &&& 0x00FF
  let s := { s with status_reg := setFlagBit s.status_reg FLAGS.C (decide (m ≤ s.x_reg)) }
  let s := { s with status_reg := setFlagBit s.status_reg FLAGS.Z (decide (temp = 0x00)) }
  let s := { s with status_reg := setFlagBit s.status_reg FLAGS.N (decide (0 < (temp &&& (0x80 : Int)))) }
  Except.ok (0, s, b)

/-- `CPU._CPY`. -/
def CPU.opCPY (s : CPUState) (b : Bus) : CpuStep := do
  let (m, b) ← cpuRead b s.address
  let temp := (s.y_reg - m) &&& 0x00FF
  let s := { s with status_reg := setFlagBit s.status_reg FLAGS.C (decide (m ≤ s.y_reg)) }
  let s := { s with status_reg := setFlagBit s.status_reg FLAGS.Z (decide (temp = 0x00)) }
  let s := { s with status_reg := setFlagBit s.status_reg FLAGS.N (decide (0 < (temp &&& (0x80 : Int)))) }
  Except.ok (0, s, b)

/-- `CPU._DEC`. -/
def CPU.opDEC (s : CPUState) (b : Bus) : CpuStep := do
  let (v, b) ← cpuRead b s.address
  let m := (v - 1) &&& 0x00FF
  let b ← cpuWrite b s.address m
  let s := { s with status_reg := setFlagBit s.status_reg FLAGS.Z (decide (m = 0x00)) }
  let s := { s with status_reg := setFlagBit s.status_reg FLAGS.N (decide (0 < (m &&& (0x80 : Int)))) }
  Except.ok (0, s, b)

/-- `CPU._DEX`. -/
def CPU.opDEX (s : CPUState) (b : Bus) : CpuStep :=
  let s := { s with x_reg := (s.x_reg - 1) &&& 0x00FF }
  let s := { s with status_reg := setFlagBit s.status_reg FLAGS.Z (decide (s.x_reg = 0x00)) }
  let s := { s with status_reg := setFlagBit s.status_reg FLAGS.N (decide (0 < (s.x_reg &&& (0x80 : Int)))) }
  Except.ok (0, s, b)

/-- `CPU._DEY`. -/
def CPU.opDEY (s : CPUState) (b : Bus) : CpuStep :=
  let s := { s with y_reg := (s.y_reg - 1) &&& 0x00FF }
  let s := { s with status_reg := setFlagBit s.status_reg FLAGS.Z (decide (s.y_reg = 0x00)) }
  let s := { s with status_reg := setFlagBit s.status_reg FLAGS.N (decide (0 < (s.y_reg &&& (0x80 : Int)))) }
  Except.ok (0, s, b)

/-- `CPU._EOR`: `A = A ^ M`, flags Z, N. -/
def CPU.opEOR (s : CPUState) (b : Bus) : CpuStep := do
  let (m, b) ← cpuRead b s.address
  let s := { s with a_reg := s.a_reg ^^^ m }
  let s := { s with status_reg := setFlagBit s.status_reg FLAGS.Z (decide (s.a_reg = 0x00)) }
  let s := { s with status_reg := setFlagBit s.status_reg FLAGS.N (decide (0 < (s.a_reg &&& (0x80 : Int)))) }
  Except.ok (1, s, b)

/-- `CPU._INC`. -/
def CPU.opINC (s : CPUState) (b : Bus) : CpuStep := do
  let (v, b) ← cpuRead b s.address
  let m := (v + 1) &&& 0x00FF
  let b ← cpuWrite b s.address m
  let s := { s with status_reg := setFlagBit s.status_reg FLAGS.Z (decide (m = 0x00)) }
  let s := { s with status_reg := setFlagBit s.status_reg FLAGS.N (decide (0 < (m &&& (0x80 : Int)))) }
  Except.ok (0, s, b)

/-- `CPU._INX`. -/
def CPU.opINX (s : CPUState) (b : Bus) : CpuStep :=
  let s := { s with x_reg := (s.x_reg + 1) &&& 0x00FF }
  let s := { s with status_reg := setFlagBit s.status_reg FLAGS.Z (decide (s.x_reg = 0x00)) }
  let s := { s with status_reg := setFlagBit s.status_reg FLAGS.N (decide (0 < (s.x_reg &&& (0x80 : Int)))) }
  Except.ok (0, s, b)

/-- `CPU._INY`. -/
def CPU.opINY (s : CPUState) (b : Bus) : CpuStep :=
  let s := { s with y_reg := (s.y_reg + 1) &&& 0x00FF }
  let s := { s with status_reg := setFlagBit s.status_reg FLAGS.Z (decide (s.y_reg = 0x00)) }
  let s := { s with status_reg := setFlagBit s.status_reg FLAGS.N (decide (0 < (s.y_reg &&& (0x80 : Int)))) }
  Except.ok (0, s, b)

/-- `CPU._JMP`. -/
def CPU.opJMP (s : CPUState) (b : Bus) : CpuStep :=
  Except.ok (0, { s with pc_reg := s.address }, b)

/-- `CPU._JSR`. -/
def CPU.opJSR (s : CPUState) (b : Bus) : CpuStep := do
  let s := { s with pc_reg := s.pc_reg - 1 }
  let b ← cpuWrite b (0x0100 + s.sp_reg) ((s.pc_reg >>> (8 : Int)) &&& 0x00FF)
  let s := { s with sp_reg := s.sp_reg - 1 }
  let b ← cpuWrite b (0x0100 + s.sp_reg) (s.pc_reg &&& 0x00FF)
  let s := { s with sp_reg := s.sp_reg - 1 }
  let s := { s with pc_reg := s.address }
  Except.ok (0, s, b)

/-- `CPU._LDA`: `A = M`, flags Z, N; extra-cycle 1. -/
def CPU.opLDA (s : CPUState) (b : Bus) : CpuStep := do
  let (m, b) ← cpuRead b s.address
  let s := { s with a_reg := m }
  let s := { s with status_reg := setFlagBit s.status_reg FLAGS.Z (decide (s.a_reg = 0x00)) }
  let s := { s with status_reg := setFlagBit s.status_reg FLAGS.N (decide (0 < (s.a_reg &&& (0x80 : Int)))) }
  Except.ok (1, s, b)

/-- `CPU._LDX`: `X = M`, flags Z, N; extra-cycle 1. -/
def CPU.opLDX (s : CPUState) (b : Bus) : CpuStep := do
  let (m, b) ← cpuRead b s.address
  let s := { s with x_reg := m }
  let s := { s with status_reg := setFlagBit s.status_reg FLAGS.Z (decide (s.x_reg = 0x00)) }
  let s := { s with status_reg := setFlagBit s.status_reg FLAGS.N (decide (0 < (s.x_reg &&& (0x80 : Int)))) }
  Except.ok (1, s, b)

/-- `CPU._LDY`: `Y = M`, flags Z, N; extra-cycle 1. -/
def CPU.opLDY (s : CPUState) (b : Bus) : CpuStep := do
  let (m, b) ← cpuRead b s.address
  let s := { s with y_reg := m }
  let s := { s with status_reg := setFlagBit s.status_reg FLAGS.Z (decide (s.y_reg = 0x00)) }
  let s := { s with status_reg := setFlagBit s.status_reg FLAGS.N (decide (0 < (s.y_reg &&& (0x80 : Int)))) }
  Except.ok (1, s, b)

/-- `CPU._LSR`. -/
def CPU.opLSR (s : CPUState) (b : Bus) : CpuStep := do
  let inst ← CPU.lookupInst s.opcode
  let a_mode := inst.address_mode = AmTag.ACC
  let (m, b) ← if a_mode then pure (s.a_reg, b) else cpuRead b s.address
  let s := { s with status_reg := setFlagBit s.status_reg FLAGS.C (decide (0 < (m &&& (0x0001 : Int)))) }
  let m := (m >>> (1 : Int)) &&& 0x00FF
  let s := { s with status_reg := setFlagBit s.status_reg FLAGS.Z (decide (m = 0x00)) }
  let s := { s with status_reg := setFlagBit s.status_reg FLAGS.N (decide (0 < (m &&& (0x80 : Int)))) }
  if a_mode then Except.ok (0, { s with a_reg := m }, b)
  else do
    let b ← cpuWrite b s.address m
    Except.ok (0, s, b)

/-- `CPU._NOP`. -/
def CPU.opNOP (s : CPUState) (b : Bus) : CpuStep := Except.ok (0, s, b)

/-- `CPU._ORA`: `A = A | M`, flags Z, N. -/
def CPU.opORA (s : CPUState) (b : Bus) : CpuStep := do
  let (m, b) ← cpuRead b s.address
  let s := { s with a_reg := s.a_reg ||| m }
  let s := { s with status_reg := setFlagBit s.status_reg FLAGS.Z (decide (s.a_reg = 0x00)) }
  let s := { s with status_reg := setFlagBit s.status_reg FLAGS.N (decide (0 < (s.a_reg &&& (0x80 : Int)))) }
  Except.ok (1, s, b)

/-- `CPU._PHA`: push the accumulator; the stack-pointer decrement is not
masked. -/
def CPU.opPHA (s : CPUState) (b : Bus) : CpuStep := do
  let b ← cpuWrite b (0x0100 + s.sp_reg) s.a_reg
  let s := { s with sp_reg := s.sp_reg - 1 }
  Except.ok (0, s, b)

/-- `CPU._PHP`. -/
def CPU.opPHP (s : CPUState) (b : Bus) : CpuStep := do
  let b ← cpuWrite b (0x0100 + s.sp_reg) s.status_reg
  let s := { s with sp_reg := s.sp_reg - 1 }
  Except.ok (0, s, b)

/-- `CPU._PLA`. -/
def CPU.opPLA (s : CPUState) (b : Bus) : CpuStep := do
  let s := { s with sp_reg := s.sp_reg + 1 }
  let (v, b) ← cpuRead b (0x0100 + s.sp_reg)
  let s := { s with a_reg := v }
  let s := { s with status_reg := setFlagBit s.status_reg FLAGS.Z (decide (s.a_reg = 0x00)) }
  let s := { s with status_reg := setFlagBit s.status_reg FLAGS.N (decide (0 < (s.a_reg &&& (0x80 : Int)))) }
  Except.ok (0, s, b)

/-- `CPU._PLP`. -/
def CPU.opPLP (s : CPUState) (b : Bus) : CpuStep := do
  let s := { s with sp_reg := s.sp_reg + 1 }
  let (v, b) ← cpuRead b (0x0100 + s.sp_reg)
  let s := { s with status_reg := v }
  Except.ok (0, s, b)

/-- `CPU._ROL`. -/
def CPU.opROL (s : CPUState) (b : Bus) : CpuStep := do
  let inst ← CPU.lookupInst s.opcode
  let a_mode := inst.address_mode = AmTag.ACC
  let (m, b) ← if a_mode then pure (s.a_reg, b) else cpuRead b s.address
  let m := (m <<< (1 : Int)) ||| boolInt (getFlagBit s.status_reg FLAGS.C)
  let s := { s with status_reg := setFlagBit s.status_reg FLAGS.C (decide (0 < (m &&& (0xFF00 : Int)))) }
  let m := m &&& 0x00FF
  let s := { s with status_reg := setFlagBit s.status_reg FLAGS.Z (decide (m = 0x00)) }
  let s := { s with status_reg := setFlagBit s.status_reg FLAGS.N (decide (0 < (m &&& (0x80 : Int)))) }
  if a_mode then Except.ok (0, { s with a_reg := m }, b)
  else do
    let b ← cpuWrite b s.address m
    Except.ok (0, s, b)

/-- `CPU._ROR`. -/
def CPU.opROR (s : CPUState) (b : Bus) : CpuStep := do
  let inst ← CPU.lookupInst s.opcode
  let a_mode := inst.address_mode = AmTag.ACC
  let (m, b) ← if a_mode then pure (s.a_reg, b) else cpuRead b s.address
  let temp := (boolInt (getFlagBit s.status_reg FLAGS.C) <<< (7 : Int)) ||| (m >>> (1 : Int))
  let s := { s with status_reg := setFlagBit s.status_reg FLAGS.C (decide (0 < (m &&& (0x0001 : Int)))) }
  let temp := temp &&& 0x00FF
  let s := { s with status_reg := setFlagBit s.status_reg FLAGS.Z (decide (temp = 0x00)) }
  let s := { s with status_reg := setFlagBit s.status_reg FLAGS.N (decide (0 < (temp &&& (0x80 : Int)))) }
  if a_mode then Except.ok (0, { s with a_reg := temp }, b)
  else do
    let b ← cpuWrite b s.address temp
    Except.ok (0, s, b)

/-- `CPU._RTI`. -/
def CPU.opRTI (s : CPUState) (b : Bus) : CpuStep := do
  let s := { s with sp_reg := s.sp_reg + 1 }
  let (v, b) ← cpuRead b (0x0100 + s.sp_reg)
  let s := { s with status_reg := v }
  let s := { s with sp_reg := s.sp_reg + 1 }
  let (lo, b) ← cpuRead b (0x0100 + s.sp_reg)
  let s := { s with pc_reg := lo }
  let s := { s with sp_reg := s.sp_reg + 1 }
  let (hi, b) ← cpuRead b (0x0100 + s.sp_reg)
  let s := { s with pc_reg := s.pc_reg ||| (hi <<< (8 : Int)) }
  Except.ok (0, s, b)

/-- `CPU._RTS`. -/
def CPU.opRTS (s : CPUState) (b : Bus) : CpuStep := do
  let s := { s with sp_reg := s.sp_reg + 1 }
  let (lo, b) ← cpuRead b (0x0100 + s.sp_reg)
  let s := { s with pc_reg := lo }
  let s := { s with sp_reg := s.sp_reg + 1 }
  let (hi, b) ← cpuRead b (0x0100 + s.sp_reg)
  let s := { s with pc_reg := s.pc_reg ||| (hi <<< (8 : Int)) }
  let s := { s with pc_reg := s.pc_reg + 1 }
  Except.ok (0, s, b)

/-- `CPU._SBC`: subtraction as addition of the one's complement. -/
def CPU.opSBC (s : CPUState) (b : Bus) : CpuStep := do
  let (v, b) ← cpuRead b s.address
  let m := v ^^^ 0x00FF
  let temp := s.a_reg + m + boolInt (getFlagBit s.status_reg FLAGS.C)
  let s := { s with status_reg := setFlagBit s.status_reg FLAGS.C (decide (0xFF < temp)) }
  let v_set := decide (0 < ((~~~(s.a_reg ^^^ m) &&& (s.a_reg ^^^ temp)) &&& (0x0080 : Int)))
  let s := { s with status_reg := setFlagBit s.status_reg FLAGS.V v_set }
  let s := { s with a_reg := temp &&& 0x00FF }
  let s := { s with status_reg := setFlagBit s.status_reg FLAGS.Z (decide (s.a_reg = 0x00)) }
  let s := { s with status_reg := setFlagBit s.status_reg FLAGS.N (decide (0 < (s.a_reg &&& (0x80 : Int)))) }
  Except.ok (1, s, b)

/-- `CPU._SEC`. -/
def CPU.opSEC (s : CPUState) (b : Bus) : CpuStep :=
  Except.ok (0, { s with status_reg := setFlagBit s.status_reg FLAGS.C true }, b)

/-- `CPU._SED`. -/
def CPU.opSED (s : CPUState) (b : Bus) : CpuStep :=
  Except.ok (0, { s with status_reg := setFlagBit s.status_reg FLAGS.D true }, b)

/-- `CPU._SEI`. -/
def CPU.opSEI (s : CPUState) (b : Bus) : CpuStep :=
  Except.ok (0, { s with status_reg := setFlagBit s.status_reg FLAGS.I true }, b)

/-- `CPU._STA`. -/
def CPU.opSTA (s : CPUState) (b : Bus) : CpuStep := do
  let b ← cpuWrite b s.address s.a_reg
  Except.ok (0, s, b)

/-- `CPU._STX`. -/
def CPU.opSTX (s : CPUState) (b : Bus) : CpuStep := do
  let b ← cpuWrite b s.address s.x_reg
  Except.ok (0, s, b)

/-- `CPU._STY`. -/
def CPU.opSTY (s : CPUState) (b : Bus) : CpuStep := do
  let b ← cpuWrite b s.address s.y_reg
  Except.ok (0, s, b)

/-- `CPU._TAX`. -/
def CPU.opTAX (s : CPUState) (b : Bus) : CpuStep :=
  let s := { s with x_reg := s.a_reg }
  let s := { s with status_reg := setFlagBit s.status_reg FLAGS.Z (decide (s.x_reg = 0x00)) }
  let s := { s with status_reg := setFlagBit s.status_reg FLAGS.N (decide (0 < (s.x_reg &&& (0x80 : Int)))) }
  Except.ok (0, s, b)

/-- `CPU._TAY`. -/
def CPU.opTAY (s : CPUState) (b : Bus) : CpuStep :=
  let s := { s with y_reg := s.a_reg }
  let s := { s with status_reg := setFlagBit s.status_reg FLAGS.Z (decide (s.y_reg = 0x00)) }
  let s := { s with status_reg := setFlagBit s.status_reg FLAGS.N (decide (0 < (s.y_reg &&& (0x80 : Int)))) }
  Except.ok (0, s, b)

/-- `CPU._TSX`. -/
def CPU.opTSX (s : CPUState) (b : Bus) : CpuStep :=
  let s := { s with x_reg := s.sp_reg }
  let s := { s with status_reg := setFlagBit s.status_reg FLAGS.Z (decide (s.x_reg = 0x00)) }
  let s := { s with status_reg := setFlagBit s.status_reg FLAGS.N (decide (0 < (s.x_reg &&& (0x80 : Int)))) }
  Except.ok (0, s, b)

/-- `CPU._TXA`. -/
def CPU.opTXA (s : CPUState) (b : Bus) : CpuStep :=
  let s := { s with a_reg := s.x_reg }
  let s := { s with status_reg := setFlagBit s.status_reg FLAGS.Z (decide (s.a_reg = 0x00)) }
  let s := { s with status_reg := setFlagBit s.status_reg FLAGS.N (decide (0 < (s.a_reg &&& (0x80 : Int)))) }
  Except.ok (0, s, b)

/-- `CPU._TXS`. -/
def CPU.opTXS (s : CPUState) (b : Bus) : CpuStep :=
  Except.ok (0, { s with sp_reg := s.x_reg }, b)

/-- `CPU._TYA`. -/
def CPU.opTYA (s : CPUState) (b : Bus) : CpuStep :=
  let s := { s with a_reg := s.y_reg }
  let s := { s with status_reg := setFlagBit s.status_reg FLAGS.Z (decide (s.a_reg = 0x00)) }
  let s := { s with status_reg := setFlagBit s.status_reg FLAGS.N (decide (0 < (s.a_reg &&& (0x80 : Int)))) }
  Except.ok (0, s, b)

/-- `CPU._XXX`: the illegal-opcode placeholder. -/
def CPU.opXXX (s : CPUState) (b : Bus) : CpuStep := Except.ok (0, s, b)

/-- Dispatch on an addressing-mode tag: the `address_mode()` call of
`CPU.clock`. -/
def CPU.runAm : AmTag → CPUState → Bus → CpuStep
  | .IMP => CPU.amIMP
  | .ACC => CPU.amACC
  | .IMM => CPU.amIMM
  | .ZP0 => CPU.amZP0
  | .ZPX => CPU.amZPX
  | .ZPY => CPU.amZPY
  | .REL => CPU.amREL
  | .ABS => CPU.amABS
  | .ABX => CPU.amABX
  | .ABY => CPU.amABY
  | .IND => CPU.amIND
  | .IZX => CPU.amIZX
  | .IZY => CPU.amIZY

/-- Dispatch on an operation tag: the `operate()` call of `CPU.clock`. -/
def CPU.runOp : OpTag → CPUState → Bus → CpuStep
  | .ADC => CPU.opADC
  | .AND => CPU.opAND
  | .ASL => CPU.opASL
  | .BCC => CPU.opBCC
  | .BCS => CPU.opBCS
  | .BEQ => CPU.opBEQ
  | .BIT => CPU.opBIT
  | .BMI => CPU.opBMI
  | .BNE => CPU.opBNE
  | .BPL => CPU.opBPL
  | .BRK => CPU.opBRK
  | .BVC => CPU.opBVC
  | .BVS => CPU.opBVS
  | .CLC => CPU.opCLC
  | .CLD => CPU.opCLD
  | .CLI => CPU.opCLI
  | .CLV => CPU.opCLV
  | .CMP => CPU.opCMP
  | .CPX => CPU.opCPX
  | .CPY => CPU.opCPY
  | .DEC => CPU.opDEC
  | .DEX => CPU.opDEX
  | .DEY => CPU.opDEY
  | .EOR => CPU.opEOR
  | .INC => CPU.opINC
  | .INX => CPU.opINX
  | .INY => CPU.opINY
  | .JMP => CPU.opJMP
  | .JSR => CPU.opJSR
  | .LDA => CPU.opLDA
  | .LDX => CPU.opLDX
  | .LDY => CPU.opLDY
  | .LSR => CPU.opLSR
  | .NOP => CPU.opNOP
  | .ORA => CPU.opORA
  | .PHA => CPU.opPHA
  | .PHP => CPU.opPHP
  | .PLA => CPU.opPLA
  | .PLP => CPU.opPLP
  | .ROL => CPU.opROL
  | .ROR => CPU.opROR
  | .RTI => CPU.opRTI
  | .RTS => CPU.opRTS
  | .SBC => CPU.opSBC
  | .SEC => CPU.opSEC
  | .SED => CPU.opSED
  | .SEI => CPU.opSEI
  | .STA => CPU.opSTA
  | .STX => CPU.opSTX
  | .STY => CPU.opSTY
  | .TAX => CPU.opTAX
  | .TAY => CPU.opTAY
  | .TSX => CPU.opTSX
  | .TXA => CPU.opTXA
  | .TXS => CPU.opTXS
  | .TYA => CPU.opTYA
  | .XXX => CPU.opXXX

/-- `CPU.reset`: load PC from the 0xFFFC/0xFFFD vector (low byte first),
zero A/X/Y, stack pointer `0xFD`, status register literal `0x34`, and a
busy countdown of 8. -/
def CPU.reset (s : CPUState) (b : Bus) : Except String (CPUState × Bus) := do
  let (lo, b) ← cpuRead b 0xFFFC
  let s := { s with pc_reg := lo }
  let (hi, b) ← cpuRead b 0xFFFD
  let s := { s with pc_reg := s.pc_reg ||| (hi <<< (8 : Int)) }
  let s := { s with a_reg := 0x00 }
  let s := { s with x_reg := 0x00 }
  let s := { s with y_reg := 0x00 }
  let s := { s with sp_reg := 0xFD }
  let s := { s with status_reg := 0x34 }
  let s := { s with cycles := 8 }
  Except.ok (s, b)

/-- `CPU.interrupt_request`: when InterruptDisable is clear, push PC
high, PC low, then the status register (Break cleared, Unused set,
InterruptDisable set), load PC from 0xFFFE/0xFFFF, countdown 7.  When
InterruptDisable is set, do nothing. -/
def CPU.interrupt_request (s : CPUState) (b : Bus) : Except String (CPUState × Bus) :=
  if ¬ getFlagBit s.status_reg FLAGS.I then do
    let b ← cpuWrite b (0x0100 + s.sp_reg) ((s.pc_reg >>> (8 : Int)) &&& 0x00FF)
    let s := { s with sp_reg := s.sp_reg - 1 }
    let b ← cpuWrite b (0x0100 + s.sp_reg) (s.pc_reg &&& 0x00FF)
    let s := { s with sp_reg := s.sp_reg - 1 }
    let s := { s with status_reg := setFlagBit s.status_reg FLAGS.B false }
    let s := { s with status_reg := setFlagBit s.status_reg FLAGS.U true }
    let s := { s with status_reg := setFlagBit s.status_reg FLAGS.I true }
    let b ← cpuWrite b (0x0100 + s.sp_reg) s.status_reg
    let s := { s with sp_reg := s.sp_reg - 1 }
    let (lo, b) ← cpuRead b 0xFFFE
    let s := { s with pc_reg := lo }
    let (hi, b) ← cpuRead b 0xFFFF
    let s := { s with pc_reg := s.pc_reg ||| (hi <<< (8 : Int)) }
    let s := { s with cycles := 7 }
    Except.ok (s, b)
  else Except.ok (s, b)

/-- `CPU.nonmaskable_interrupt_request`: the same push sequence,
unconditionally, vector 0xFFFA/0xFFFB, countdown 8. -/
def CPU.nonmaskable_interrupt_request (s : CPUState) (b : Bus) :
    Except String (CPUState × Bus) := do
  let b ← cpuWrite b (0x0100 + s.sp_reg) ((s.pc_reg >>> (8 : Int)) &&& 0x00FF)
  let s := { s with sp_reg := s.sp_reg - 1 }
  let b ← cpuWrite b (0x0100 + s.sp_reg) (s.pc_reg &&& 0x00FF)
  let s := { s with sp_reg := s.sp_reg - 1 }
  let s := { s with status_reg := setFlagBit s.status_reg FLAGS.B false }
  let s := { s with status_reg := setFlagBit s.status_reg FLAGS.U true }
  let s := { s with status_reg := setFlagBit s.status_reg FLAGS.I true }
  let b ← cpuWrite b (0x0100 + s.sp_reg) s.status_reg
  let s := { s with sp_reg := s.sp_reg - 1 }
  let (lo, b) ← cpuRead b 0xFFFA
  let s := { s with pc_reg := lo }
  let (hi, b) ← cpuRead b 0xFFFB
  let s := { s with pc_reg := s.pc_reg ||| (hi <<< (8 : Int)) }
  let s := { s with cycles := 8 }
  Except.ok (s, b)

/-- `CPU.clock`: when the countdown is zero, fetch the opcode (PC
increment not masked), run the addressing mode then the operation, and
set the countdown to the table's base cycles plus the bitwise AND of the
two returned extra-cycle signals; then, on every call, bump the global
clock count and decrement the countdown, returning it. -/
def CPU.clock (s : CPUState) (b : Bus) : Except String (Int × CPUState × Bus) := do
  let (s, b) ←
    if s.cycles = 0 then do
      let (v, b) ← cpuRead b s.pc_reg
      let s := { s with opcode := v }
      let s := { s with pc_reg := s.pc_reg + 1 }
      let inst ← CPU.lookupInst s.opcode
      let (extra_cycle1, s, b) ← CPU.runAm inst.address_mode s b
      let (extra_cycle2, s, b) ← CPU.runOp inst.operate s b
      let s := { s with cycles := inst.cycles + (extra_cycle1 &&& extra_cycle2) }
      pure (s, b)
    else pure (s, b)
  let s := { s with clock_count := s.clock_count + 1 }
  let s := { s with cycles := s.cycles - 1 }
  Except.ok (s.cycles, s, b)

/-- The last routing branch of `Bus.read`/`Bus.write`: the optional
cartridge, an unmapped read being `0x00`. -/
def cartRead (c? : Option Cartridge) (address : Int) : Except String Int :=
  match c? with
  | some c => Cartridge.read c address
  | none => Except.ok 0x00

/-- The register a load instruction targets (used to state the
load-instruction flag property). -/
def loadTarget (op : OpTag) (s : CPUState) : Int :=
  match op with
  | OpTag.LDA => s.a_reg
  | OpTag.LDX => s.x_reg
  | OpTag.LDY => s.y_reg
  | _ => 0

/-! ## Concrete test fixtures (inputs for witnesses and evaluations) -/

/-- Overwrite a list of (index, value) cells of an array. -/
def patchArray (xs : Array Int) : List (Nat × Int) → Array Int
  | [] => xs
  | (i, v) :: t => patchArray (xs.setD i v) t

/-- A one-program-bank, one-pattern-bank cartridge with the baseline
mapper, its program memory patched at the given offsets. -/
def testCart (prg : List (Nat × Int)) : Cartridge where
  prg_banks := 1
  chr_banks := 1
  prg_memory := patchArray (Array.mkArray 16384 0x00) prg
  chr_memory := Array.mkArray 8192 0x00
  mapper := some ⟨1, 1⟩
  mirror := MIRROR.HORIZONTAL
  valid_image := true

/-- A cartridge carrying only a mirroring mode (no mapper, no memory) —
all the PPU nametable logic consults. -/
def mirrorCart (m : MIRROR) : Cartridge where
  prg_banks := 0
  chr_banks := 0
  prg_memory := #[]
  chr_memory := #[]
  mapper := none
  mirror := m
  valid_image := false

/-- A fresh bus with some RAM cells patched. -/
def testBusRam (ps : List (Nat × Int)) : Bus :=
  { Bus.init with ram := patchArray (Array.mkArray 2048 0x00) ps }

/-- A fresh bus with a `testCart` inserted. -/
def testBusCart (prg : List (Nat × Int)) : Bus :=
  Bus.insert_cartridge Bus.init (testCart prg)

/-- A fresh PPU connected to a mirroring-only cartridge. -/
def testPPU (m : MIRROR) : PPUState :=
  { PPU.init with cart := some (mirrorCart m) }

/-- A bus whose cartridge holds the reset vector `0xFFFC/0xFFFD` =
`0x00/0x80` (program-memory offsets `0x3FFC/0x3FFD` under the one-bank
mask). -/
def vecBus : Bus := testBusCart [(0x3FFC, 0x00), (0x3FFD, 0x80)]

/-- A bus whose cartridge holds the IRQ vector `0xFFFE/0xFFFF` =
`0x00/0x90` (program-memory offsets `0x3FFE/0x3FFF` under the one-bank
mask). -/
def irqBus : Bus := testBusCart [(0x3FFE, 0x00), (0x3FFF, 0x90)]

/-- A CPU with InterruptDisable clear (status `0x20`), PC `0x1234` and
stack pointer `0xFD`, about to take an IRQ. -/
def irqS : CPUState where
  a_reg := 0x00
  x_reg := 0x00
  y_reg := 0x00
  sp_reg := 0xFD
  pc_reg := 0x1234
  status_reg := 0x20
  address := 0x0000
  opcode := 0x00
  cycles := 0
  clock_count := 0

/-- RAM holding `LDA $44FF,Y` (opcode `0xB9`, operand `0xFF 0x44`) at
address 0. -/
def ldaRam : Array Int :=
  (((Array.mkArray 2048 0x00).setD 0 0xB9).setD 1 0xFF).setD 2 0x44

def ldaBus : Bus := { Bus.init with ram := ldaRam }

/-- The CPU about to execute the instruction at PC = 0 with Y = 1. -/
def ldaS : CPUState where
  a_reg := 0x00
  x_reg := 0x00
  y_reg := 0x01
  sp_reg := 0xFD
  pc_reg := 0x0000
  status_reg := 0x34
  address := 0x0000
  opcode := 0x00
  cycles := 0
  clock_count := 0

/-- RAM holding an indirect pointer `0x00FF` at PC = 1, with `0x34` at
`0x00FF` and `0x12` at `0x0000` (the start of the pointer's page). -/
def indRam : Array Int :=
  (((Array.mkArray 2048 0x00).setD 1 0xFF).setD 0xFF 0x34).setD 0 0x12

def indBus : Bus := { Bus.init with ram := indRam }

/-! ## General lemmas about the primitives -/

lemma exceptBind_ok {α β : Type} (x : Except String α) (f : α → Except String β) (y : β) :
    (x >>= f) = Except.ok y ↔ ∃ a, x = Except.ok a ∧ f a = Except.ok y := by
  cases x <;> simp [Bind.bind, Except.bind]

lemma bind_ok_l {α β : Type} (a : α) (f : α → Except String β) :
    (Except.ok a >>= f) = f a := rfl

lemma pyAnd_ofNat (a b : Nat) : pyAnd (a : Int) (b : Int) = ((a &&& b : Nat) : Int) := by
  simp [pyAnd, Int.toNat_ofNat]

lemma pyOr_ofNat (a b : Nat) : pyOr (a : Int) (b : Int) = ((a ||| b : Nat) : Int) := by
  simp [pyOr, Int.toNat_ofNat]

lemma pyShl_ofNat (a k : Nat) : pyShl (a : Int) (k : Int) = ((a <<< k : Nat) : Int) := by
  simp [pyShl, Nat.shiftLeft_eq]

/-- Python's `x & (2^k - 1)` on a non-negative integer is `x % 2^k`. -/
lemma pyAnd_mask (k : Nat) (m : Int) (hm : m = 2 ^ k - 1) (a : Int) (h : 0 ≤ a) :
    pyAnd a m = a % 2 ^ k := by
  obtain ⟨n, rfl⟩ := Int.eq_ofNat_of_zero_le h
  have hmn : m = ((2 ^ k - 1 : Nat) : Int) := by
    rw [hm]; push_cast [Nat.one_le_two_pow]; ring
  rw [hmn, pyAnd_ofNat, Nat.and_pow_two_sub_one_eq_mod]
  push_cast
  rfl

lemma nat_lor_shl8 (lo hi : Nat) (h : lo < 256) : lo ||| (hi <<< 8) = 256 * hi + lo := by
  apply Nat.eq_of_testBit_eq
  intro j
  rw [Nat.testBit_lor, Nat.testBit_shiftLeft,
    show 256 * hi + lo = 2 ^ 8 * hi + lo by norm_num,
    Nat.testBit_mul_pow_two_add _ (show lo < 2 ^ 8 by omega)]
  by_cases hj : j < 8
  · simp [hj, show ¬ (j ≥ 8) by omega]
  · have h2j : (256 : Nat) ≤ 2 ^ j := by
      calc (256 : Nat) = 2 ^ 8 := by norm_num
        _ ≤ 2 ^ j := Nat.pow_le_pow_right (by norm_num) (by omega)
    have hlo : lo.testBit j = false := Nat.testBit_lt_two_pow (by omega)
    simp [hj, hlo, show j ≥ 8 by omega]

/-- The little-endian combination `lo | (hi << 8)` of two bytes. -/
lemma pyOr_shl8 (lo hi : Int) (h0 : 0 ≤ lo) (h1 : lo < 256) (h2 : 0 ≤ hi) :
    pyOr lo (pyShl hi 8) = 256 * hi + lo := by
  obtain ⟨a, rfl⟩ := Int.eq_ofNat_of_zero_le h0
  obtain ⟨b, rfl⟩ := Int.eq_ofNat_of_zero_le h2
  have hsh : pyShl (b : Int) 8 = ((b <<< 8 : Nat) : Int) := by
    simp [pyShl, Nat.shiftLeft_eq]
  rw [hsh, pyOr_ofNat, nat_lor_shl8 a b (by exact_mod_cast h1)]
  push_cast
  try ring

/-! ## General lemmas about Python list access -/

lemma pyIndex_ok (xs : Array Int) (i : Nat) (h : i < xs.size) :
    pyIndex xs (i : Int) = Except.ok (xs.getD i 0) := by
  simp [pyIndex, Array.get?, Array.getD, h, Int.toNat_ofNat,
    show ¬ ((i : Int) < 0) by omega, show (0 : Int) ≤ (i : Int) by omega]

lemma pySet_ok {α : Type} (xs : Array α) (i : Nat) (v : α) (h : i < xs.size) :
    pySet xs (i : Int) v = Except.ok (xs.setD i v) := by
  simp [pySet, h, Int.toNat_ofNat,
    show ¬ ((i : Int) < 0) by omega, show (0 : Int) ≤ (i : Int) by omega]

lemma getD_setD_same (xs : Array Int) (i : Nat) (v : Int) (h : i < xs.size) :
    (xs.setD i v).getD i 0 = v := by
  simp [Array.setD, Array.getD, h]

lemma size_setD {α : Type} (xs : Array α) (i : Nat) (v : α) :
    (xs.setD i v).size = xs.size := Array.size_setD xs i v

lemma getD_setD_ne (xs : Array Int) (i j : Nat) (v : Int) (h : i ≠ j) (hj : j < xs.size) :
    (xs.setD i v).getD j 0 = xs.getD j 0 := by
  by_cases hi : i < xs.size
  · simp [Array.setD, Array.getD, hi, hj, Array.getElem_set_ne, h]
  · simp [Array.setD, Array.getD, hi, hj]

lemma getD_mkArrayInt (n i : Nat) (h : i < n) : (Array.mkArray n (0:Int)).getD i 0 = 0 := by
  simp [Array.getD, Array.size_mkArray, h, Array.getElem_mkArray]

lemma size_patchArray (xs : Array Int) (ps : List (Nat × Int)) :
    (patchArray xs ps).size = xs.size := by
  induction ps generalizing xs with
  | nil => rfl
  | cons p t ih =>
    show (patchArray (xs.setD p.1 p.2) t).size = xs.size
    rw [ih, size_setD]

lemma patchArray_two (xs : Array Int) (i j : Nat) (v w : Int) :
    patchArray xs [(i, v), (j, w)] = (xs.setD i v).setD j w := rfl

lemma patchArray_one (xs : Array Int) (i : Nat) (v : Int) :
    patchArray xs [(i, v)] = xs.setD i v := rfl

lemma patchArray_cons (xs : Array Int) (p : Nat × Int) (t : List (Nat × Int)) :
    patchArray xs (p :: t) = patchArray (xs.setD p.1 p.2) t := rfl

lemma patchArray_nil (xs : Array Int) : patchArray xs [] = xs := rfl

/-- A `testCart` read of a program-space address: the one-bank mapper
reduces the address modulo `0x4000` and indexes program memory. -/
lemma testCart_read_prg (ps : List (Nat × Int)) (a : Int)
    (h : 0x8000 ≤ a ∧ a ≤ 0xFFFF) :
    Cartridge.read (testCart ps) a =
      Except.ok ((patchArray (Array.mkArray 16384 0x00) ps).getD (a % 16384).toNat 0) := by
  have hmask : pyAnd a 0x3FFF = a % 16384 := by
    have := pyAnd_mask 14 (2 ^ 14 - 1) rfl a (by omega)
    rw [show ((0x3FFF : Int)) = 2 ^ 14 - 1 by norm_num, this]
    norm_num
  have hmap : Mapper000.map_read ⟨1, 1⟩ a = a % 16384 := by
    unfold Mapper000.map_read
    rw [if_neg (by omega), if_pos h]
    simpa using hmask
  rw [show Cartridge.read (testCart ps) a =
      (if Mapper000.map_read ⟨1, 1⟩ a ≠ -0x0001 then
        if 0x0000 ≤ a ∧ a ≤ 0x1FFF then pyIndex (testCart ps).chr_memory (Mapper000.map_read ⟨1, 1⟩ a)
        else if 0x8000 ≤ a ∧ a ≤ 0xFFFF then pyIndex (testCart ps).prg_memory (Mapper000.map_read ⟨1, 1⟩ a)
        else Except.ok 0x00
      else Except.ok 0x00) from rfl,
    hmap, if_pos (by omega), if_neg (by omega), if_pos h]
  have hsz : (testCart ps).prg_memory.size = 16384 := by
    show (patchArray (Array.mkArray 16384 0x00) ps).size = 16384
    rw [size_patchArray, Array.size_mkArray]
  have hlt : (a % 16384).toNat < (testCart ps).prg_memory.size := by
    rw [hsz]
    omega
  rw [show (a % 16384) = (((a % 16384).toNat : Nat) : Int) by omega,
    pyIndex_ok _ _ hlt]
  simp [testCart, Int.toNat_ofNat]
  rw [show (a % 16384 ⊔ 0) = a % 16384 by omega]

/-! ## Bus routing lemmas -/

lemma busRead_ram (b : Bus) (a : Int) (ro : Bool) (hsz : b.ram.size = 2048)
    (h1 : 0 ≤ a) (h2 : a ≤ 0x1FFF) :
    Bus.read b a ro = Except.ok (b.ram.getD (a % 2048).toNat 0, b) := by
  have hm : pyAnd a 0x07FF = a % 2048 := pyAnd_mask 11 _ (by norm_num) a h1
  have hlt : (a % 2048).toNat < b.ram.size := by
    rw [hsz]
    omega
  have hnn : 0 ≤ a % 2048 := by omega
  rw [Bus.read, if_pos ⟨h1, h2⟩]
  show Except.bind (pyIndex b.ram (a &&& 0x07FF)) _ = _
  rw [show a &&& (0x07FF : Int) = pyAnd a 0x07FF from rfl, hm,
    show a % 2048 = (((a % 2048).toNat : Nat) : Int) by omega,
    pyIndex_ok _ _ hlt]
  rfl

lemma busWrite_ram (b : Bus) (a v : Int) (hsz : b.ram.size = 2048)
    (h1 : 0 ≤ a) (h2 : a ≤ 0x1FFF) :
    Bus.write b a v = Except.ok { b with ram := b.ram.setD (a % 2048).toNat v } := by
  have hm : pyAnd a 0x07FF = a % 2048 := pyAnd_mask 11 _ (by norm_num) a h1
  have hlt : (a % 2048).toNat < b.ram.size := by
    rw [hsz]
    omega
  rw [Bus.write, if_pos ⟨h1, h2⟩]
  show Except.bind (pySet b.ram (a &&& 0x07FF) v) _ = _
  rw [show a &&& (0x07FF : Int) = pyAnd a 0x07FF from rfl, hm,
    show a % 2048 = (((a % 2048).toNat : Nat) : Int) by omega,
    pySet_ok _ _ _ hlt]
  rfl

lemma busRead_high (b : Bus) (a : Int) (ro : Bool) (h : 0x3FFF < a) (v : Int)
    (hv : cartRead b.cart a = Except.ok v) :
    Bus.read b a ro = Except.ok (v, b) := by
  rw [Bus.read, if_neg (by omega), if_neg (by omega)]
  unfold cartRead at hv
  cases hc : b.cart with
  | some c =>
    rw [hc] at hv
    simp only [] at hv
    show Except.bind (Cartridge.read c a) _ = _
    rw [hv]
    rfl
  | none =>
    rw [hc] at hv
    simp only [Except.ok.injEq] at hv
    show Except.ok (0, b) = _
    rw [hv]

/-- `CPU.reset` on any state and bus whose two vector reads yield `lo`
and `hi`: PC gets `lo | (hi << 8)`, A/X/Y are zeroed, SP is `0xFD`, the
status register is the literal `0x34`, the countdown is 8, and the bus —
including all of RAM — is returned unchanged. -/
lemma reset_general (s : CPUState) (b : Bus) (lo hi : Int)
    (hlo : cartRead b.cart 0xFFFC = Except.ok lo)
    (hhi : cartRead b.cart 0xFFFD = Except.ok hi) :
    CPU.reset s b = Except.ok ({ s with pc_reg := pyOr lo (pyShl hi 8), a_reg := 0x00, x_reg := 0x00, y_reg := 0x00, sp_reg := 0xFD, status_reg := 0x34, cycles := 8 }, b) := by
  rw [CPU.reset,
    show cpuRead b 0xFFFC = Except.ok (lo, b) from busRead_high b _ false (by norm_num) lo hlo,
    bind_ok_l]
  dsimp only
  rw [show cpuRead b 0xFFFD = Except.ok (hi, b) from busRead_high b _ false (by norm_num) hi hhi,
    bind_ok_l]
  rfl

/-! ## Claim theorems -/

lemma vecBus_lo : cartRead vecBus.cart 0xFFFC = Except.ok 0x00 := by
  show Cartridge.read (testCart [(0x3FFC, 0x00), (0x3FFD, 0x80)]) 0xFFFC = _
  rw [testCart_read_prg _ _ (by norm_num),
    show ((0xFFFC : Int) % 16384).toNat = 16380 by decide, patchArray_two]
  rw [getD_setD_ne _ 16381 16380 _ (by omega)
      (by rw [size_setD, Array.size_mkArray]; omega),
    getD_setD_same _ _ _ (by rw [Array.size_mkArray]; omega)]

lemma vecBus_hi : cartRead vecBus.cart 0xFFFD = Except.ok 0x80 := by
  show Cartridge.read (testCart [(0x3FFC, 0x00), (0x3FFD, 0x80)]) 0xFFFD = _
  rw [testCart_read_prg _ _ (by norm_num),
    show ((0xFFFD : Int) % 16384).toNat = 16381 by decide, patchArray_two]
  rw [getD_setD_same _ _ _ (by rw [size_setD, Array.size_mkArray]; omega)]

/-- Claim C1 (code is wrong): on a bus whose reset vector holds
`0x00/0x80`, `reset()` loads PC with the little-endian word `0x8000`,
zeroes A/X/Y, sets the stack pointer to `0xFD` and the countdown to 8,
and returns the bus — hence all of RAM — unchanged; but it sets the
status register to `0x34` (Unused|Break|InterruptDisable), not the
`0x24` (Unused|InterruptDisable) that the claim and the repository's own
`test_reset` assert. -/
theorem reset_status_bug :
    CPU.reset CPU.init vecBus = Except.ok ({ CPU.init with pc_reg := 0x8000, cycles := 8 }, vecBus) ∧
    ({ CPU.init with pc_reg := 0x8000, cycles := 8 } : CPUState).status_reg = 0x34 ∧
    (0x34 : Int) ≠ 0x24 := by
  refine ⟨?_, rfl, by norm_num⟩
  rw [reset_general CPU.init vecBus 0x00 0x80 vecBus_lo vecBus_hi,
    show pyOr 0x00 (pyShl 0x80 8) = 0x8000 by decide]
  rfl

/-- Claim C2 (code is wrong): with a baseline-mapper cartridge inserted,
a bus write to a cartridge-delegated address does not discard the data
silently — `Cartridge.write` calls `map_write(address, data)` while
`Mapper000.map_write` only accepts `(self, address)`, so a `TypeError`
is raised; reads and cartridge-less writes do resolve to the defined
defaults. -/
theorem cart_write_typeerror :
    Bus.write (testBusCart []) 0x8000 0x01 =
      Except.error "TypeError: map_write takes 2 positional arguments but 3 were given" ∧
    Bus.read (testBusCart []) 0x4020 false = Except.ok (0x00, testBusCart []) ∧
    Bus.write Bus.init 0x8000 0x01 = Except.ok Bus.init := by
  refine ⟨?_, ?_, ?_⟩
  · rw [Bus.write, if_neg (by norm_num), if_neg (by norm_num)]
    rfl
  · rw [Bus.read, if_neg (by norm_num), if_neg (by norm_num)]
    show Except.bind (Cartridge.read (testCart []) 0x4020) _ = _
    rw [show Cartridge.read (testCart []) 0x4020 = Except.ok 0x00 by rfl]
    rfl
  · rw [Bus.write, if_neg (by norm_num), if_neg (by norm_num)]
    rfl

set_option maxRecDepth 4000 in
lemma and_ff00_page (p : Nat) (hp : p < 256) :
    pyAnd (256 * (p : Int) + 255) 0xFF00 = 256 * (p : Int) := by
  revert p
  decide

lemma and_ff_low (plo phi : Int) (h0 : 0 ≤ plo) (h1 : plo < 256) (h2 : 0 ≤ phi) :
    pyAnd (256 * phi + plo) 0xFF = plo := by
  rw [pyAnd_mask 8 _ (by norm_num) _ (by omega)]
  omega

/-- Claim C6 (confirmed): the indirect mode reads a 2-byte little-endian
pointer `plo + 256*phi` from the instruction stream and resolves the
operand address from it; when the pointer's low byte `plo` is `0xFF` the
high byte of the operand address is read from `256*phi` — the start of
the pointer's own page (`ptr & 0xFF00`) — while otherwise it is read
from `ptr + 1`. -/
theorem ind_page_bug (s : CPUState) (b b1 b2 b3 b4 : Bus) (plo phi t1 t2 : Int)
    (hplo : 0 ≤ plo ∧ plo < 256) (hphi : 0 ≤ phi ∧ phi < 256)
    (ht1 : 0 ≤ t1 ∧ t1 < 256) (ht2 : 0 ≤ t2)
    (r1 : cpuRead b s.pc_reg = Except.ok (plo, b1))
    (r2 : cpuRead b1 (s.pc_reg + 1) = Except.ok (phi, b2))
    (r3 : cpuRead b2 (256 * phi + plo) = Except.ok (t1, b3)) :
    (plo = 0xFF →
      cpuRead b3 (256 * phi) = Except.ok (t2, b4) →
      ∃ s', CPU.amIND s b = Except.ok (0, s', b4) ∧
        s'.address = 256 * t2 + t1 ∧ s'.pc_reg = s.pc_reg + 2 ∧
        s'.a_reg = s.a_reg ∧ s'.status_reg = s.status_reg) ∧
    (plo ≠ 0xFF →
      cpuRead b3 (256 * phi + plo + 1) = Except.ok (t2, b4) →
      ∃ s', CPU.amIND s b = Except.ok (0, s', b4) ∧
        s'.address = 256 * t2 + t1 ∧ s'.pc_reg = s.pc_reg + 2 ∧
        s'.a_reg = s.a_reg ∧ s'.status_reg = s.status_reg) := by
  have hptr : pyOr plo (pyShl phi 8) = 256 * phi + plo :=
    pyOr_shl8 plo phi hplo.1 hplo.2 hphi.1
  have hcond : pyAnd (256 * phi + plo) 0xFF = plo := and_ff_low plo phi hplo.1 hplo.2 hphi.1
  have haddr : ∀ hi : Int, 0 ≤ hi → pyOr t1 (pyShl hi 8) = 256 * hi + t1 :=
    fun hi hh => pyOr_shl8 t1 hi ht1.1 ht1.2 hh
  constructor
  · intro hff r4
    rw [CPU.amIND, r1, bind_ok_l]
    dsimp only
    rw [r2, bind_ok_l]
    dsimp only
    rw [show (plo ||| phi <<< (8 : Int)) = 256 * phi + plo from hptr, r3, bind_ok_l]
    dsimp only
    rw [show ((256 * phi + plo) &&& (0x00FF : Int)) = plo from hcond, if_pos hff]
    obtain ⟨p, hp⟩ := Int.eq_ofNat_of_zero_le hphi.1
    rw [show ((256 * phi + plo) &&& (0xFF00 : Int)) = 256 * phi by
      rw [hff]
      subst hp
      exact and_ff00_page p (by exact_mod_cast hphi.2)]
    rw [r4, bind_ok_l]
    dsimp only
    rw [show (t1 ||| t2 <<< (8 : Int)) = 256 * t2 + t1 from haddr t2 ht2]
    exact ⟨_, rfl, rfl, by show s.pc_reg + 1 + 1 = s.pc_reg + 2; omega, rfl, rfl⟩
  · intro hff r4
    rw [CPU.amIND, r1, bind_ok_l]
    dsimp only
    rw [r2, bind_ok_l]
    dsimp only
    rw [show (plo ||| phi <<< (8 : Int)) = 256 * phi + plo from hptr, r3, bind_ok_l]
    dsimp only
    rw [show ((256 * phi + plo) &&& (0x00FF : Int)) = plo from hcond, if_neg hff]
    rw [r4, bind_ok_l]
    dsimp only
    rw [show (t1 ||| t2 <<< (8 : Int)) = 256 * t2 + t1 from haddr t2 ht2]
    exact ⟨_, rfl, rfl, by show s.pc_reg + 1 + 1 = s.pc_reg + 2; omega, rfl, rfl⟩

lemma indBus_ram :
    indBus.ram = (((Array.mkArray 2048 0x00).setD 1 0xFF).setD 0xFF 0x34).setD 0 0x12 := by
  simp only [indBus, indRam]

lemma indBus_sz : indBus.ram.size = 2048 := by
  rw [indBus_ram, size_setD, size_setD, size_setD, Array.size_mkArray]

lemma indBus_g (j : Nat) (v : Int) (hj : j < 2048)
    (h0 : j ≠ 0) (hFF : j ≠ 0xFF) (h1 : j ≠ 1 → v = 0) (hv : j = 1 → v = 0xFF) :
    indBus.ram.getD j 0 = if j = 1 then 0xFF else 0 := by
  rw [indBus_ram,
    getD_setD_ne _ 0 j _ (fun he => h0 he.symm)
      (by rw [size_setD, size_setD, Array.size_mkArray]; omega),
    getD_setD_ne _ 0xFF j _ (fun he => hFF he.symm)
      (by rw [size_setD, Array.size_mkArray]; omega)]
  by_cases hj1 : j = 1
  · rw [if_pos hj1, hj1, getD_setD_same _ _ _ (by rw [Array.size_mkArray]; omega)]
  · rw [if_neg hj1,
      getD_setD_ne _ 1 j _ (fun he => hj1 he.symm) (by rw [Array.size_mkArray]; omega),
      getD_mkArrayInt _ _ hj]

lemma indBus_g255 : indBus.ram.getD 255 0 = 0x34 := by
  rw [indBus_ram,
    getD_setD_ne _ 0 255 _ (by omega)
      (by rw [size_setD, size_setD, Array.size_mkArray]; omega),
    getD_setD_same _ _ _ (by rw [size_setD, Array.size_mkArray]; omega)]

lemma indBus_g0 : indBus.ram.getD 0 0 = 0x12 := by
  rw [indBus_ram, getD_setD_same _ _ _
    (by rw [size_setD, size_setD, Array.size_mkArray]; omega)]

lemma indBus_read (a : Int) (v : Int) (h1 : 0 ≤ a) (h2 : a ≤ 0x1FFF)
    (hv : indBus.ram.getD (a % 2048).toNat 0 = v) :
    cpuRead indBus a = Except.ok (v, indBus) := by
  rw [show cpuRead indBus a = Bus.read indBus a false from rfl,
    busRead_ram indBus a false indBus_sz h1 h2, hv]

/-- Witness for `ind_page_bug`: pointer `0x00FF` (low byte `0xFF`), so
the operand address combines the byte at `0x00FF` with the high byte
read from `0x0000`, giving `0x1234`. -/
theorem ind_page_bug_witness :
    ∃ s', CPU.amIND { CPU.init with pc_reg := 1 } indBus = Except.ok (0, s', indBus) ∧
      s'.address = 0x1234 ∧ s'.pc_reg = 3 := by
  have hr1 : cpuRead indBus (1 : Int) = Except.ok (0xFF, indBus) := by
    refine indBus_read 1 0xFF (by norm_num) (by norm_num) ?_
    rw [show ((1 : Int) % 2048).toNat = 1 by decide,
      indBus_g 1 0xFF (by omega) (by omega) (by omega) (by omega) (fun h2 => rfl)]
    rfl
  have hr2 : cpuRead indBus (2 : Int) = Except.ok (0, indBus) := by
    refine indBus_read 2 0 (by norm_num) (by norm_num) ?_
    rw [show ((2 : Int) % 2048).toNat = 2 by decide,
      indBus_g 2 0 (by omega) (by omega) (by omega) (fun h2 => rfl) (by omega)]
    rfl
  have hr3 : cpuRead indBus (255 : Int) = Except.ok (0x34, indBus) := by
    refine indBus_read 255 0x34 (by norm_num) (by norm_num) ?_
    rw [show ((255 : Int) % 2048).toNat = 255 by decide]
    exact indBus_g255
  have hr4 : cpuRead indBus (0 : Int) = Except.ok (0x12, indBus) := by
    refine indBus_read 0 0x12 (by norm_num) (by norm_num) ?_
    rw [show ((0 : Int) % 2048).toNat = 0 by decide]
    exact indBus_g0
  obtain ⟨s', e1, e2, e3, -, -⟩ :=
    (ind_page_bug { CPU.init with pc_reg := 1 } indBus indBus indBus indBus indBus
      0xFF 0 0x34 0x12 (by norm_num) (by norm_num) (by norm_num) (by norm_num)
      hr1 (by simpa using hr2) (by simpa using hr3)).1 rfl (by simpa using hr4)
  refine ⟨s', e1, by omega, ?_⟩
  rw [e3]
  rfl

lemma ram_of_ramBus (R : Array Int) : ({ Bus.init with ram := R } : Bus).ram = R := rfl

lemma read_ramBus (R : Array Int) (a v : Int) (h1 : 0 ≤ a) (h2 : a ≤ 0x1FFF)
    (hsz : R.size = 2048) (hv : R.getD (a % 2048).toNat 0 = v) :
    cpuRead { Bus.init with ram := R } a = Except.ok (v, { Bus.init with ram := R }) := by
  rw [show cpuRead { Bus.init with ram := R } a =
      Bus.read { Bus.init with ram := R } a false from rfl,
    busRead_ram _ a false (by rw [ram_of_ramBus, hsz]) h1 h2, ram_of_ramBus, hv]

lemma write_ramBus (R : Array Int) (a v : Int) (h1 : 0 ≤ a) (h2 : a ≤ 0x1FFF)
    (hsz : R.size = 2048) :
    cpuWrite { Bus.init with ram := R } a v =
      Except.ok { Bus.init with ram := R.setD (a % 2048).toNat v } := by
  rw [show cpuWrite { Bus.init with ram := R } a v =
      Bus.write { Bus.init with ram := R } a v from rfl,
    busWrite_ram _ a v (by rw [ram_of_ramBus, hsz]) h1 h2]

set_option maxRecDepth 40000 in
lemma lookup_pha : CPU.lookupInst 0x48 = Except.ok ⟨"PHA", OpTag.PHA, AmTag.IMP, 3⟩ := by
  decide

/-- Running `clock()` from a zero countdown over an opcode byte `0x48`
(PHA, implied, 3 base cycles): the fetch increments PC by exactly one
(no 16-bit mask) and the push decrements SP by exactly one (no 8-bit
mask). -/
lemma clock_pha_run (s : CPUState) (b b1 b2 : Bus)
    (h0 : s.cycles = 0)
    (hfetch : cpuRead b s.pc_reg = Except.ok (0x48, b1))
    (hpush : cpuWrite b1 (0x0100 + s.sp_reg) s.a_reg = Except.ok b2) :
    CPU.clock s b = Except.ok (2, { s with opcode := 0x48, pc_reg := s.pc_reg + 1, sp_reg := s.sp_reg - 1, cycles := 2, clock_count := s.clock_count + 1 }, b2) := by
  rw [CPU.clock, if_pos h0, hfetch, bind_ok_l]
  dsimp only
  rw [lookup_pha, bind_ok_l]
  dsimp only [CPU.runAm, CPU.amIMP, bind_ok_l]
  dsimp only [CPU.runOp, CPU.opPHA]
  rw [hpush, bind_ok_l]
  simp only [bind_ok_l, show ((0 : Int) &&& (0 : Int)) = 0 from by decide]
  rfl

/-- Claim C3 (counterexample): the claim says the stack pointer wraps
mod 256 after every mutation.  Executing PHA from `sp = 0` leaves
`sp_reg = -1`, which is outside `[0, 255]` (the claimed wrap would give
`0xFF`). -/
theorem register_mask_claim_cex :
    (CPU.clock { CPU.init with sp_reg := 0, a_reg := 0x7A }
        { Bus.init with ram := (Array.mkArray 2048 0x00).setD 0 0x48 }).map
      (fun r => r.2.1.sp_reg) = Except.ok (-1) ∧
    ¬ (0 ≤ (-1 : Int) ∧ (-1 : Int) ≤ 255) := by
  refine ⟨?_, by norm_num⟩
  have hsz : ((Array.mkArray 2048 (0x00 : Int)).setD 0 0x48).size = 2048 := by
    rw [size_setD, Array.size_mkArray]
  have hfetch := read_ramBus ((Array.mkArray 2048 0x00).setD 0 0x48) 0 0x48
    (by norm_num) (by norm_num) hsz
    (by rw [show ((0 : Int) % 2048).toNat = 0 by decide,
          getD_setD_same _ _ _ (by rw [Array.size_mkArray]; omega)])
  have hpush := write_ramBus ((Array.mkArray 2048 0x00).setD 0 0x48) 0x100 0x7A
    (by norm_num) (by norm_num) hsz
  rw [clock_pha_run { CPU.init with sp_reg := 0, a_reg := 0x7A } _ _ _ rfl hfetch
    (by exact hpush)]
  rfl

/-- Claim C3 (amended): 8-bit results written through an explicit
`& 0xFF` stay in range, but not every mutation is masked — the fetch in
`clock()` increments PC by exactly one with no mod-65536 wrap, and a
push decrements SP by exactly one with no mod-256 wrap, while leaving
A, X, Y and the status register untouched.  (So `pc = 0xFFFF` fetch
yields `0x10000` and `sp = 0` push yields `-1`.) -/
theorem register_mask_amended (s : CPUState) (b b1 b2 : Bus)
    (h0 : s.cycles = 0)
    (hfetch : cpuRead b s.pc_reg = Except.ok (0x48, b1))
    (hpush : cpuWrite b1 (0x0100 + s.sp_reg) s.a_reg = Except.ok b2) :
    ∃ s', CPU.clock s b = Except.ok (2, s', b2) ∧
      s'.sp_reg = s.sp_reg - 1 ∧ s'.pc_reg = s.pc_reg + 1 ∧
      s'.a_reg = s.a_reg ∧ s'.x_reg = s.x_reg ∧ s'.y_reg = s.y_reg ∧
      s'.status_reg = s.status_reg :=
  ⟨_, clock_pha_run s b b1 b2 h0 hfetch hpush, rfl, rfl, rfl, rfl, rfl, rfl⟩

lemma phaBus_ram : (testBusCart [(0x3FFF, 0x48)]).ram = Array.mkArray 2048 0x00 := by
  simp only [testBusCart, Bus.insert_cartridge, Bus.init]

lemma phaBus_fetch :
    cpuRead (testBusCart [(0x3FFF, 0x48)]) 0xFFFF =
      Except.ok (0x48, testBusCart [(0x3FFF, 0x48)]) := by
  have hcart : cartRead (testBusCart [(0x3FFF, 0x48)]).cart 0xFFFF = Except.ok 0x48 := by
    show Cartridge.read (testCart [(0x3FFF, 0x48)]) 0xFFFF = _
    rw [testCart_read_prg _ _ (by norm_num),
      show ((0xFFFF : Int) % 16384).toNat = 16383 by decide, patchArray_one,
      getD_setD_same _ _ _ (by rw [Array.size_mkArray]; omega)]
  rw [show cpuRead (testBusCart [(0x3FFF, 0x48)]) 0xFFFF =
      Bus.read (testBusCart [(0x3FFF, 0x48)]) 0xFFFF false from rfl,
    busRead_high _ _ _ (by norm_num) _ hcart]

lemma phaBus_push :
    cpuWrite (testBusCart [(0x3FFF, 0x48)]) (0x0100 + (0 : Int)) 0x7A =
      Except.ok { testBusCart [(0x3FFF, 0x48)] with
        ram := (testBusCart [(0x3FFF, 0x48)]).ram.setD ((0x100 : Int) % 2048).toNat 0x7A } := by
  rw [show cpuWrite (testBusCart [(0x3FFF, 0x48)]) (0x0100 + (0 : Int)) 0x7A =
      Bus.write (testBusCart [(0x3FFF, 0x48)]) 0x100 0x7A from rfl,
    busWrite_ram _ _ _ (by rw [phaBus_ram, Array.size_mkArray]) (by norm_num) (by norm_num)]

/-- Witness for `register_mask_amended` at `sp = 0`, `pc = 0xFFFF` (the
PHA opcode supplied by the cartridge at `0xFFFF`): the fetched PHA
leaves `sp = -1` and `pc = 0x10000`. -/
theorem register_mask_amended_witness :
    ∃ s' b2, CPU.clock { CPU.init with sp_reg := 0, pc_reg := 0xFFFF, a_reg := 0x7A }
        (testBusCart [(0x3FFF, 0x48)]) = Except.ok (2, s', b2) ∧
      s'.sp_reg = -1 ∧ s'.pc_reg = 0x10000 := by
  obtain ⟨s', h1, h2, h3, -, -, -, -⟩ :=
    register_mask_amended { CPU.init with sp_reg := 0, pc_reg := 0xFFFF, a_reg := 0x7A }
      (testBusCart [(0x3FFF, 0x48)]) (testBusCart [(0x3FFF, 0x48)]) _
      rfl phaBus_fetch phaBus_push
  refine ⟨s', _, h1, ?_, ?_⟩
  · rw [h2]
    rfl
  · rw [h3]
    rfl

lemma pure_ok {α : Type} (a : α) : (pure a : Except String α) = Except.ok a := rfl

lemma ldaRam_sz : ldaRam.size = 2048 := by
  rw [ldaRam, size_setD, size_setD, size_setD, Array.size_mkArray]

lemma ldaBus_r0 : cpuRead ldaBus (0 : Int) = Except.ok (0xB9, ldaBus) := by
  refine read_ramBus ldaRam 0 0xB9 (by norm_num) (by norm_num) ldaRam_sz ?_
  rw [show ((0 : Int) % 2048).toNat = 0 by decide, ldaRam,
    getD_setD_ne _ 2 0 _ (by omega)
      (by rw [size_setD, size_setD, Array.size_mkArray]; omega),
    getD_setD_ne _ 1 0 _ (by omega) (by rw [size_setD, Array.size_mkArray]; omega),
    getD_setD_same _ _ _ (by rw [Array.size_mkArray]; omega)]

lemma ldaBus_r1 : cpuRead ldaBus (1 : Int) = Except.ok (0xFF, ldaBus) := by
  refine read_ramBus ldaRam 1 0xFF (by norm_num) (by norm_num) ldaRam_sz ?_
  rw [show ((1 : Int) % 2048).toNat = 1 by decide, ldaRam,
    getD_setD_ne _ 2 1 _ (by omega)
      (by rw [size_setD, size_setD, Array.size_mkArray]; omega),
    getD_setD_same _ _ _ (by rw [size_setD, Array.size_mkArray]; omega)]

lemma ldaBus_r2 : cpuRead ldaBus (2 : Int) = Except.ok (0x44, ldaBus) := by
  refine read_ramBus ldaRam 2 0x44 (by norm_num) (by norm_num) ldaRam_sz ?_
  rw [show ((2 : Int) % 2048).toNat = 2 by decide, ldaRam,
    getD_setD_same _ _ _
      (by rw [size_setD, size_setD, Array.size_mkArray]; omega)]

lemma ldaBus_r4500 : cpuRead ldaBus (0x4500 : Int) = Except.ok (0, ldaBus) := by
  rw [show cpuRead ldaBus 0x4500 = Bus.read ldaBus 0x4500 false from rfl,
    busRead_high ldaBus 0x4500 false (by norm_num) 0
      (by show cartRead none 0x4500 = Except.ok 0; rfl)]

set_option maxRecDepth 40000 in
lemma lookup_b9 : CPU.lookupInst 0xB9 = Except.ok ⟨"LDA", OpTag.LDA, AmTag.ABY, 4⟩ := by
  decide

lemma b9_am (s : CPUState) (hpc : s.pc_reg = 1) (hy : s.y_reg = 1) :
    CPU.runAm AmTag.ABY s ldaBus =
      Except.ok (1, { s with pc_reg := 3, address := 0x4500 }, ldaBus) := by
  dsimp only [CPU.runAm]
  rw [CPU.amABY, hpc, ldaBus_r1, bind_ok_l]
  dsimp only
  rw [show ((1 : Int) + 1) = 2 from rfl, ldaBus_r2, bind_ok_l]
  dsimp only
  rw [hy, show ((0xFF : Int) ||| (0x44 : Int) <<< (8 : Int)) = 0x44FF from by decide]
  rw [show ((0x44FF : Int) + 1) = 0x4500 from rfl,
    show ((0x4500 : Int) &&& (0xFF00 : Int)) = 0x4500 from by decide,
    show ((0x44FF : Int) &&& (0xFF00 : Int)) = 0x4400 from by decide]
  rw [if_pos (by norm_num)]
  rfl

lemma b9_op (s : CPUState) (ha : s.address = 0x4500) (hst : s.status_reg = 0x34) :
    CPU.runOp OpTag.LDA s ldaBus =
      Except.ok (1, { s with a_reg := 0, status_reg := 0x36 }, ldaBus) := by
  dsimp only [CPU.runOp]
  rw [CPU.opLDA, ha, ldaBus_r4500, bind_ok_l]
  dsimp only
  rw [hst,
    show setFlagBit (setFlagBit (0x34 : Int) FLAGS.Z (decide ((0 : Int) = 0))) FLAGS.N
        (decide (0 < ((0 : Int) &&& (0x80 : Int)))) = 0x36 from by decide]

/-- Running `clock()` on the `LDA $44FF,Y` scenario: the countdown is
set to `4 + (1 &&& 1) = 5` and comes back as 4 after the call's own
decrement. -/
lemma clock_b9_run :
    CPU.clock ldaS ldaBus =
      Except.ok (4, { ldaS with opcode := 0xB9, pc_reg := 3, address := 0x4500, a_reg := 0, status_reg := 0x36, cycles := 4, clock_count := 1 }, ldaBus) := by
  rw [CPU.clock, if_pos (show ldaS.cycles = 0 from rfl),
    show ldaS.pc_reg = (0 : Int) from rfl, ldaBus_r0, bind_ok_l]
  dsimp only
  rw [lookup_b9, bind_ok_l]
  dsimp only
  rw [b9_am _ (by rfl) (by rfl), bind_ok_l]
  dsimp only
  rw [b9_op _ (by rfl) (by rfl), bind_ok_l]
  simp only [pure_ok, bind_ok_l, show ((1 : Int) &&& (1 : Int)) = 1 from by decide]
  rfl

/-- Claim C4 (confirmed): whenever `clock()` runs with the countdown at
zero and succeeds, the execution decomposes into the opcode fetch, the
table lookup, the addressing-mode call and the operation call, and the
countdown that was set equals the table's base cycles plus the bitwise
AND of the two extra-cycle signals (the returned countdown is that value
after the call's own decrement).  In particular opcode `0xB9`
(LDA absolute,Y) with base address `0x44FF` and `Y = 1` sets a countdown
of `5 = 4 + (1 &&& 1)` instead of the base 4. -/
theorem clock_cycle_formula :
    (∀ s b r s' b', s.cycles = 0 → CPU.clock s b = Except.ok (r, s', b') →
      ∃ v b1 inst e1 s1 bus2 e2 s2 bus3,
        cpuRead b s.pc_reg = Except.ok (v, b1) ∧
        CPU.lookupInst v = Except.ok inst ∧
        CPU.runAm inst.address_mode { s with opcode := v, pc_reg := s.pc_reg + 1 } b1 =
          Except.ok (e1, s1, bus2) ∧
        CPU.runOp inst.operate s1 bus2 = Except.ok (e2, s2, bus3) ∧
        b' = bus3 ∧ s'.cycles + 1 = inst.cycles + (e1 &&& e2) ∧ r = s'.cycles) ∧
    (∃ sf, CPU.clock ldaS ldaBus = Except.ok (4, sf, ldaBus) ∧ sf.cycles + 1 = 5 ∧
      CPU.lookupInst 0xB9 = Except.ok ⟨"LDA", OpTag.LDA, AmTag.ABY, 4⟩ ∧
      (4 : Int) + ((1 : Int) &&& (1 : Int)) = 5) := by
  constructor
  · intro s b r s' b' h0 hck
    rw [CPU.clock, if_pos h0, exceptBind_ok] at hck
    obtain ⟨⟨v, b1⟩, hread, hck⟩ := hck
    dsimp only at hck
    rw [exceptBind_ok] at hck
    obtain ⟨inst, hlook, hck⟩ := hck
    rw [exceptBind_ok] at hck
    obtain ⟨⟨e1, s1, bus2⟩, ham, hck⟩ := hck
    dsimp only at hck
    rw [exceptBind_ok] at hck
    obtain ⟨⟨e2, s2, bus3⟩, hop, hck⟩ := hck
    dsimp only at hck
    rw [pure_ok, bind_ok_l] at hck
    dsimp only at hck
    simp only [Except.ok.injEq, Prod.mk.injEq] at hck
    obtain ⟨hr, hs', hb'⟩ := hck
    refine ⟨v, b1, inst, e1, s1, bus2, e2, s2, bus3, hread, hlook, ham, hop, hb'.symm, ?_, ?_⟩
    · rw [← hs']
      show inst.cycles + (e1 &&& e2) - 1 + 1 = inst.cycles + (e1 &&& e2)
      omega
    · rw [← hr, ← hs']
  · refine ⟨_, clock_b9_run, by norm_num, lookup_b9, by decide⟩

/-- Witness for the universal part of `clock_cycle_formula`, taken at
the `LDA $44FF,Y` scenario. -/
theorem clock_cycle_formula_witness :
    ∃ v b1 inst e1 s1 bus2 e2 s2 bus3,
      cpuRead ldaBus ldaS.pc_reg = Except.ok (v, b1) ∧
      CPU.lookupInst v = Except.ok inst ∧
      CPU.runAm inst.address_mode { ldaS with opcode := v, pc_reg := ldaS.pc_reg + 1 } b1 =
        Except.ok (e1, s1, bus2) ∧
      CPU.runOp inst.operate s1 bus2 = Except.ok (e2, s2, bus3) ∧
      ldaBus = bus3 ∧
      ({ ldaS with opcode := 0xB9, pc_reg := 3, address := 0x4500, a_reg := 0, status_reg := 0x36, cycles := 4, clock_count := 1 } : CPUState).cycles + 1 = inst.cycles + (e1 &&& e2) ∧
      (4 : Int) = ({ ldaS with opcode := 0xB9, pc_reg := 3, address := 0x4500, a_reg := 0, status_reg := 0x36, cycles := 4, clock_count := 1 } : CPUState).cycles :=
  clock_cycle_formula.1 ldaS ldaBus 4 _ ldaBus rfl clock_b9_run

/-- Claim C7 (counterexample): the claim predicts that the baseline
mapper's write translation passes pattern-space addresses through
unchanged for every pair of bank counts, and that program-space
addresses are masked to `0x7FFF` whenever the bank count differs from
one.  On the code, a cartridge with one pattern bank maps a write to
`0x0000` to the unmapped sentinel `-1` (not `0x0000`), and with zero
program banks a read of `0xC000` is masked to `0x3FFF`, giving offset
`0x0000` (not `0x4000`). -/
theorem mapper000_claim_cex :
    Mapper000.map_write ⟨1, 1⟩ 0x0000 = -1 ∧
    Mapper000.map_read ⟨0, 0⟩ 0xC000 = 0x0000 ∧
    (-1 : Int) ≠ 0x0000 ∧ (0x0000 : Int) ≠ 0x4000 := by
  refine ⟨by decide, by decide, by decide, by decide⟩

/-- Claim C7 (amended): for every address and bank counts, both
translations map program-space `[0x8000, 0xFFFF]` to the address reduced
modulo `0x4000` when at most one program bank is present and modulo
`0x8000` when more than one is; the read translation passes
pattern-space `[0x0000, 0x1FFF]` through unchanged, while the write
translation passes it through only when there are zero pattern banks;
every other address yields the unmapped sentinel `-1`. -/
theorem mapper000_translation (prg chr a : Int) :
    Mapper000.map_read ⟨prg, chr⟩ a =
      (if 0 ≤ a ∧ a ≤ 0x1FFF then a
       else if 0x8000 ≤ a ∧ a ≤ 0xFFFF then a % (if 1 < prg then 0x8000 else 0x4000)
       else -1) ∧
    Mapper000.map_write ⟨prg, chr⟩ a =
      (if (0 ≤ a ∧ a ≤ 0x1FFF) ∧ chr = 0 then a
       else if 0x8000 ≤ a ∧ a ≤ 0xFFFF then a % (if 1 < prg then 0x8000 else 0x4000)
       else -1) := by
  have hmask : ∀ hpa : 0x8000 ≤ a ∧ a ≤ 0xFFFF,
      (a &&& (if 1 < prg then (0x7FFF : Int) else 0x3FFF)) =
        a % (if 1 < prg then 0x8000 else 0x4000) := by
    intro hpa
    have ha : 0 ≤ a := by omega
    by_cases hp : 1 < prg
    · simp only [hp, if_true]
      rw [show ((0x7FFF : Int) : Int) = 2 ^ 15 - 1 by norm_num] at *
      have := pyAnd_mask 15 (2 ^ 15 - 1) rfl a ha
      rw [show (a &&& (2 ^ 15 - 1 : Int)) = pyAnd a (2 ^ 15 - 1) from rfl, this]
      norm_num
    · simp only [hp, if_false]
      have := pyAnd_mask 14 (2 ^ 14 - 1) rfl a ha
      rw [show ((0x3FFF : Int) : Int) = 2 ^ 14 - 1 by norm_num,
        show (a &&& (2 ^ 14 - 1 : Int)) = pyAnd a (2 ^ 14 - 1) from rfl, this]
      norm_num
  constructor
  · unfold Mapper000.map_read
    by_cases h1 : 0 ≤ a ∧ a ≤ 0x1FFF
    · simp [h1]
    · simp only [h1, if_false]
      by_cases h2 : 0x8000 ≤ a ∧ a ≤ 0xFFFF
      · simp only [h2, if_true]
        exact hmask h2
      · simp [h2]
  · unfold Mapper000.map_write
    by_cases h1 : (0 ≤ a ∧ a ≤ 0x1FFF) ∧ chr = 0
    · simp [h1]
    · simp only [h1, if_false]
      by_cases h2 : 0x8000 ≤ a ∧ a ≤ 0xFFFF
      · simp only [h2, if_true]
        exact hmask h2
      · simp [h2]

/-- Claim C8 (confirmed): writing a byte to any RAM-mapped address and
reading back any of the mirrored addresses (the address plus or minus
`0x0800`, `0x1000` or `0x1800`, while it stays inside `[0x0000, 0x1FFF]`)
returns the same byte, both accesses resolving to the physical cell
`address & 0x07FF`. -/
theorem ram_mirror_roundtrip (b : Bus) (a o a2 v : Int)
    (hsz : b.ram.size = 2048) (h1 : 0 ≤ a) (h2 : a ≤ 0x1FFF)
    (ho : o = 0x0800 ∨ o = 0x1000 ∨ o = 0x1800)
    (ha2 : a2 = a + o ∨ a2 = a - o) (h3 : 0 ≤ a2) (h4 : a2 ≤ 0x1FFF) :
    ∃ b' : Bus, Bus.write b a v = Except.ok b' ∧
      Bus.read b' a2 false = Except.ok (v, b') := by
  refine ⟨{ b with ram := b.ram.setD (a % 2048).toNat v }, busWrite_ram b a v hsz h1 h2, ?_⟩
  have hsz' : ({ b with ram := b.ram.setD (a % 2048).toNat v } : Bus).ram.size = 2048 := by
    simpa [size_setD] using hsz
  rw [busRead_ram _ a2 false hsz' h3 h4]
  have hmod : a2 % 2048 = a % 2048 := by omega
  have hlt : (a % 2048).toNat < b.ram.size := by
    rw [hsz]
    omega
  rw [show ({ b with ram := b.ram.setD (a % 2048).toNat v } : Bus).ram =
      b.ram.setD (a % 2048).toNat v from rfl, hmod, getD_setD_same _ _ _ hlt]

/-- Witness for `ram_mirror_roundtrip`: a fresh bus, address `0x0005`,
mirror offset `0x0800`, byte `0xAB`. -/
theorem ram_mirror_roundtrip_witness :
    ∃ b' : Bus, Bus.write Bus.init 0x0005 0xAB = Except.ok b' ∧
      Bus.read b' 0x0805 false = Except.ok (0xAB, b') :=
  ram_mirror_roundtrip Bus.init 0x0005 0x0800 0x0805 0xAB
    (by simp [Bus.init]) (by norm_num) (by norm_num) (Or.inl rfl)
    (Or.inl (by norm_num)) (by norm_num) (by norm_num)

set_option maxRecDepth 4000 in
lemma irq_status_bits : ∀ st : Nat, st < 256 →
    (getFlagBit (setFlagBit (setFlagBit (setFlagBit (st : Int) FLAGS.B false) FLAGS.U true) FLAGS.I true) FLAGS.B = false ∧
     getFlagBit (setFlagBit (setFlagBit (setFlagBit (st : Int) FLAGS.B false) FLAGS.U true) FLAGS.I true) FLAGS.U = true ∧
     getFlagBit (setFlagBit (setFlagBit (setFlagBit (st : Int) FLAGS.B false) FLAGS.U true) FLAGS.I true) FLAGS.I = true) := by
  decide

lemma irq_run (s : CPUState) (b : Bus) (lo hi t : Int)
    (hI : getFlagBit s.status_reg FLAGS.I = false)
    (hsz : b.ram.size = 2048)
    (h1 : 0 ≤ s.sp_reg) (h2 : s.sp_reg ≤ 0xFF)
    (ht : setFlagBit (setFlagBit (setFlagBit s.status_reg FLAGS.B false) FLAGS.U true) FLAGS.I true = t)
    (hlo : cartRead b.cart 0xFFFE = Except.ok lo)
    (hhi : cartRead b.cart 0xFFFF = Except.ok hi) :
    CPU.interrupt_request s b = Except.ok
      ({ s with pc_reg := pyOr lo (pyShl hi 8), sp_reg := s.sp_reg - 1 - 1 - 1, status_reg := t, cycles := 7 },
       { b with ram := ((b.ram.setD (((0x0100 : Int) + s.sp_reg) % 2048).toNat ((s.pc_reg >>> (8 : Int)) &&& 0x00FF)).setD (((0x0100 : Int) + (s.sp_reg - 1)) % 2048).toNat (s.pc_reg &&& 0x00FF)).setD (((0x0100 : Int) + (s.sp_reg - 1 - 1)) % 2048).toNat t }) := by
  rw [CPU.interrupt_request, if_pos (by simp [hI])]
  rw [show cpuWrite b (0x0100 + s.sp_reg) ((s.pc_reg >>> (8 : Int)) &&& 0x00FF)
      = Except.ok { b with ram := b.ram.setD (((0x0100 : Int) + s.sp_reg) % 2048).toNat ((s.pc_reg >>> (8 : Int)) &&& 0x00FF) }
      from busWrite_ram b _ _ hsz (by omega) (by omega), bind_ok_l]
  dsimp only
  rw [show cpuWrite { b with ram := b.ram.setD (((0x0100 : Int) + s.sp_reg) % 2048).toNat ((s.pc_reg >>> (8 : Int)) &&& 0x00FF) } (0x0100 + (s.sp_reg - 1)) (s.pc_reg &&& 0x00FF)
      = Except.ok { b with ram := (b.ram.setD (((0x0100 : Int) + s.sp_reg) % 2048).toNat ((s.pc_reg >>> (8 : Int)) &&& 0x00FF)).setD (((0x0100 : Int) + (s.sp_reg - 1)) % 2048).toNat (s.pc_reg &&& 0x00FF) }
      from busWrite_ram _ _ _ (by rw [size_setD]; exact hsz) (by omega) (by omega), bind_ok_l]
  rw [ht]
  rw [show cpuWrite { b with ram := (b.ram.setD (((0x0100 : Int) + s.sp_reg) % 2048).toNat ((s.pc_reg >>> (8 : Int)) &&& 0x00FF)).setD (((0x0100 : Int) + (s.sp_reg - 1)) % 2048).toNat (s.pc_reg &&& 0x00FF) } (0x0100 + (s.sp_reg - 1 - 1)) t
      = Except.ok { b with ram := ((b.ram.setD (((0x0100 : Int) + s.sp_reg) % 2048).toNat ((s.pc_reg >>> (8 : Int)) &&& 0x00FF)).setD (((0x0100 : Int) + (s.sp_reg - 1)) % 2048).toNat (s.pc_reg &&& 0x00FF)).setD (((0x0100 : Int) + (s.sp_reg - 1 - 1)) % 2048).toNat t }
      from busWrite_ram _ _ _ (by rw [size_setD, size_setD]; exact hsz) (by omega) (by omega), bind_ok_l]
  rw [show cpuRead { b with ram := ((b.ram.setD (((0x0100 : Int) + s.sp_reg) % 2048).toNat ((s.pc_reg >>> (8 : Int)) &&& 0x00FF)).setD (((0x0100 : Int) + (s.sp_reg - 1)) % 2048).toNat (s.pc_reg &&& 0x00FF)).setD (((0x0100 : Int) + (s.sp_reg - 1 - 1)) % 2048).toNat t } 0xFFFE
      = Except.ok (lo, { b with ram := ((b.ram.setD (((0x0100 : Int) + s.sp_reg) % 2048).toNat ((s.pc_reg >>> (8 : Int)) &&& 0x00FF)).setD (((0x0100 : Int) + (s.sp_reg - 1)) % 2048).toNat (s.pc_reg &&& 0x00FF)).setD (((0x0100 : Int) + (s.sp_reg - 1 - 1)) % 2048).toNat t })
      from busRead_high _ _ false (by norm_num) lo hlo, bind_ok_l]
  dsimp only
  rw [show cpuRead { b with ram := ((b.ram.setD (((0x0100 : Int) + s.sp_reg) % 2048).toNat ((s.pc_reg >>> (8 : Int)) &&& 0x00FF)).setD (((0x0100 : Int) + (s.sp_reg - 1)) % 2048).toNat (s.pc_reg &&& 0x00FF)).setD (((0x0100 : Int) + (s.sp_reg - 1 - 1)) % 2048).toNat t } 0xFFFF
      = Except.ok (hi, { b with ram := ((b.ram.setD (((0x0100 : Int) + s.sp_reg) % 2048).toNat ((s.pc_reg >>> (8 : Int)) &&& 0x00FF)).setD (((0x0100 : Int) + (s.sp_reg - 1)) % 2048).toNat (s.pc_reg &&& 0x00FF)).setD (((0x0100 : Int) + (s.sp_reg - 1 - 1)) % 2048).toNat t })
      from busRead_high _ _ false (by norm_num) hi hhi, bind_ok_l]
  rfl

lemma irqBus_sz : irqBus.ram.size = 2048 := by
  show (Array.mkArray 2048 (0 : Int)).size = 2048
  rw [Array.size_mkArray]

lemma irqBus_lo : cartRead irqBus.cart 0xFFFE = Except.ok 0x00 := by
  show Cartridge.read (testCart [(0x3FFE, 0x00), (0x3FFF, 0x90)]) 0xFFFE = _
  rw [testCart_read_prg _ _ (by norm_num),
    show ((0xFFFE : Int) % 16384).toNat = 16382 by decide, patchArray_two]
  rw [getD_setD_ne _ 16383 16382 _ (by omega)
      (by rw [size_setD, Array.size_mkArray]; omega),
    getD_setD_same _ _ _ (by rw [Array.size_mkArray]; omega)]

lemma irqBus_hi : cartRead irqBus.cart 0xFFFF = Except.ok 0x90 := by
  show Cartridge.read (testCart [(0x3FFE, 0x00), (0x3FFF, 0x90)]) 0xFFFF = _
  rw [testCart_read_prg _ _ (by norm_num),
    show ((0xFFFF : Int) % 16384).toNat = 16383 by decide, patchArray_two]
  rw [getD_setD_same _ _ _ (by rw [size_setD, Array.size_mkArray]; omega)]

/-- Claim C5: `interrupt_request()` is a complete no-op (state and bus
returned unchanged) when InterruptDisable is set; when it is clear, it
pushes the PC high byte, the PC low byte, then the status register with
Break cleared, Unused set and InterruptDisable set, at descending stack
addresses `0x0100+sp`, loads PC with the little-endian word read from
`0xFFFE`/`0xFFFF`, and sets the countdown to 7 (stack pointer down by
3). -/
theorem irq_claim :
    (∀ (s : CPUState) (b : Bus),
        getFlagBit s.status_reg FLAGS.I = true →
        CPU.interrupt_request s b = Except.ok (s, b)) ∧
    (∀ (s : CPUState) (b : Bus) (lo hi : Int),
        getFlagBit s.status_reg FLAGS.I = false →
        b.ram.size = 2048 →
        0 ≤ s.sp_reg → s.sp_reg ≤ 0xFF →
        0 ≤ s.pc_reg → s.pc_reg ≤ 0xFFFF →
        0 ≤ s.status_reg → s.status_reg < 256 →
        0 ≤ lo → lo < 256 → 0 ≤ hi →
        cartRead b.cart 0xFFFE = Except.ok lo →
        cartRead b.cart 0xFFFF = Except.ok hi →
        ∃ st' : Int,
          st' = setFlagBit (setFlagBit (setFlagBit s.status_reg FLAGS.B false) FLAGS.U true) FLAGS.I true ∧
          getFlagBit st' FLAGS.B = false ∧
          getFlagBit st' FLAGS.U = true ∧
          getFlagBit st' FLAGS.I = true ∧
          CPU.interrupt_request s b = Except.ok
            ({ s with pc_reg := 256 * hi + lo, sp_reg := s.sp_reg - 3, status_reg := st', cycles := 7 },
             { b with ram := ((b.ram.setD ((0x0100 : Int) + s.sp_reg).toNat (s.pc_reg / 256)).setD ((0x0100 : Int) + s.sp_reg - 1).toNat (s.pc_reg % 256)).setD ((0x0100 : Int) + s.sp_reg - 2).toNat st' })) := by
  constructor
  · intro s b h
    rw [CPU.interrupt_request, if_neg (by simp [h])]
  · intro s b lo hi hI hsz hsp0 hsp1 hpc0 hpc1 hst0 hst1 hlo0 hlo1 hhi0 hrlo hrhi
    refine ⟨_, rfl, ?_, ?_, ?_, ?_⟩
    · obtain ⟨n, hn⟩ := Int.eq_ofNat_of_zero_le hst0
      rw [hn]
      exact (irq_status_bits n (by rw [hn] at hst1; exact_mod_cast hst1)).1
    · obtain ⟨n, hn⟩ := Int.eq_ofNat_of_zero_le hst0
      rw [hn]
      exact (irq_status_bits n (by rw [hn] at hst1; exact_mod_cast hst1)).2.1
    · obtain ⟨n, hn⟩ := Int.eq_ofNat_of_zero_le hst0
      rw [hn]
      exact (irq_status_bits n (by rw [hn] at hst1; exact_mod_cast hst1)).2.2
    · have hhb : ((s.pc_reg >>> (8 : Int)) &&& (0x00FF : Int)) = s.pc_reg / 256 := by
        have e : pyShr s.pc_reg 8 = s.pc_reg / 256 := by
          rw [pyShr, show (2 : Int) ^ (8 : Int).toNat = 256 from by decide]
          rfl
        show pyAnd (pyShr s.pc_reg 8) 0x00FF = _
        rw [e, pyAnd_mask 8 _ (by norm_num) _ (by omega)]
        omega
      have hlb : (s.pc_reg &&& (0x00FF : Int)) = s.pc_reg % 256 := by
        show pyAnd s.pc_reg 0x00FF = _
        rw [pyAnd_mask 8 _ (by norm_num) _ hpc0]
        norm_num
      have hpcv : pyOr lo (pyShl hi 8) = 256 * hi + lo := pyOr_shl8 lo hi hlo0 hlo1 hhi0
      rw [irq_run s b lo hi _ hI hsz hsp0 (by omega) rfl hrlo hrhi, hpcv, hhb, hlb,
        show ((0x0100 : Int) + s.sp_reg) % 2048 = (0x0100 : Int) + s.sp_reg from by omega,
        show ((0x0100 : Int) + (s.sp_reg - 1)) % 2048 = (0x0100 : Int) + s.sp_reg - 1 from by omega,
        show ((0x0100 : Int) + (s.sp_reg - 1 - 1)) % 2048 = (0x0100 : Int) + s.sp_reg - 2 from by omega,
        show s.sp_reg - 1 - 1 - 1 = s.sp_reg - 3 from by ring]

theorem irq_claim_witness :
    ∃ st' : Int,
      st' = setFlagBit (setFlagBit (setFlagBit irqS.status_reg FLAGS.B false) FLAGS.U true) FLAGS.I true ∧
      getFlagBit st' FLAGS.B = false ∧
      getFlagBit st' FLAGS.U = true ∧
      getFlagBit st' FLAGS.I = true ∧
      CPU.interrupt_request irqS irqBus = Except.ok
        ({ irqS with pc_reg := 256 * 0x90 + 0x00, sp_reg := irqS.sp_reg - 3, status_reg := st', cycles := 7 },
         { irqBus with ram := ((irqBus.ram.setD ((0x0100 : Int) + irqS.sp_reg).toNat (irqS.pc_reg / 256)).setD ((0x0100 : Int) + irqS.sp_reg - 1).toNat (irqS.pc_reg % 256)).setD ((0x0100 : Int) + irqS.sp_reg - 2).toNat st' }) :=
  irq_claim.2 irqS irqBus 0x00 0x90 (by decide) irqBus_sz (by decide) (by decide)
    (by decide) (by decide) (by decide) (by decide) (by decide) (by decide) (by decide)
    irqBus_lo irqBus_hi


set_option maxRecDepth 4000 in
lemma ld_bits_z : ∀ st : Nat, st < 256 → ∀ z w : Bool,
    getFlagBit (setFlagBit (setFlagBit (st : Int) FLAGS.Z z) FLAGS.N w) FLAGS.Z = z := by
  decide

set_option maxRecDepth 4000 in
lemma ld_bits_n : ∀ st : Nat, st < 256 → ∀ z w : Bool,
    getFlagBit (setFlagBit (setFlagBit (st : Int) FLAGS.Z z) FLAGS.N w) FLAGS.N = w := by
  decide

set_option maxRecDepth 4000 in
lemma ld_bits_c : ∀ st : Nat, st < 256 → ∀ z w : Bool,
    getFlagBit (setFlagBit (setFlagBit (st : Int) FLAGS.Z z) FLAGS.N w) FLAGS.C = getFlagBit (st : Int) FLAGS.C := by
  decide

set_option maxRecDepth 4000 in
lemma ld_bits_i : ∀ st : Nat, st < 256 → ∀ z w : Bool,
    getFlagBit (setFlagBit (setFlagBit (st : Int) FLAGS.Z z) FLAGS.N w) FLAGS.I = getFlagBit (st : Int) FLAGS.I := by
  decide

set_option maxRecDepth 4000 in
lemma ld_bits_d : ∀ st : Nat, st < 256 → ∀ z w : Bool,
    getFlagBit (setFlagBit (setFlagBit (st : Int) FLAGS.Z z) FLAGS.N w) FLAGS.D = getFlagBit (st : Int) FLAGS.D := by
  decide

set_option maxRecDepth 4000 in
lemma ld_bits_b : ∀ st : Nat, st < 256 → ∀ z w : Bool,
    getFlagBit (setFlagBit (setFlagBit (st : Int) FLAGS.Z z) FLAGS.N w) FLAGS.B = getFlagBit (st : Int) FLAGS.B := by
  decide

set_option maxRecDepth 4000 in
lemma ld_bits_v : ∀ st : Nat, st < 256 → ∀ z w : Bool,
    getFlagBit (setFlagBit (setFlagBit (st : Int) FLAGS.Z z) FLAGS.N w) FLAGS.V = getFlagBit (st : Int) FLAGS.V := by
  decide

set_option maxRecDepth 4000 in
lemma byte_bit7 : ∀ m : Nat, m < 256 →
    decide (0 < ((m : Int) &&& (0x80 : Int))) = decide (128 ≤ (m : Int)) := by
  decide

lemma am_status_preserved (tag : AmTag) (s : CPUState) (b : Bus) (e : Int)
    (s' : CPUState) (b' : Bus) (h : CPU.runAm tag s b = Except.ok (e, s', b')) :
    s'.status_reg = s.status_reg := by
  cases tag <;>
    (simp only [CPU.runAm, CPU.amIMP, CPU.amACC, CPU.amIMM, CPU.amZP0, CPU.amZPX,
       CPU.amZPY, CPU.amREL, CPU.amABS, CPU.amABX, CPU.amABY, CPU.amIND, CPU.amIZX,
       CPU.amIZY] at h
     repeat
       (rw [exceptBind_ok] at h
        obtain ⟨⟨v, b1⟩, -, h⟩ := h
        dsimp only at h)
     first
       | (simp only [Except.ok.injEq, Prod.mk.injEq] at h
          obtain ⟨he, hs, hb⟩ := h
          rw [← hs])
       | (split at h <;>
           first
             | (simp only [Except.ok.injEq, Prod.mk.injEq] at h
                obtain ⟨he, hs, hb⟩ := h
                rw [← hs])
             | (split at h <;>
                 (simp only [Except.ok.injEq, Prod.mk.injEq] at h
                  obtain ⟨he, hs, hb⟩ := h
                  rw [← hs]))))

lemma opLDA_run (s : CPUState) (b : Bus) (v : Int) (b2 : Bus)
    (hread : cpuRead b s.address = Except.ok (v, b2)) :
    CPU.runOp OpTag.LDA s b = Except.ok (1, { s with a_reg := v, status_reg := setFlagBit (setFlagBit s.status_reg FLAGS.Z (decide (v = 0x00))) FLAGS.N (decide (0 < (v &&& (0x80 : Int)))) }, b2) := by
  show CPU.opLDA s b = _
  rw [CPU.opLDA, hread, bind_ok_l]

lemma opLDX_run (s : CPUState) (b : Bus) (v : Int) (b2 : Bus)
    (hread : cpuRead b s.address = Except.ok (v, b2)) :
    CPU.runOp OpTag.LDX s b = Except.ok (1, { s with x_reg := v, status_reg := setFlagBit (setFlagBit s.status_reg FLAGS.Z (decide (v = 0x00))) FLAGS.N (decide (0 < (v &&& (0x80 : Int)))) }, b2) := by
  show CPU.opLDX s b = _
  rw [CPU.opLDX, hread, bind_ok_l]

lemma opLDY_run (s : CPUState) (b : Bus) (v : Int) (b2 : Bus)
    (hread : cpuRead b s.address = Except.ok (v, b2)) :
    CPU.runOp OpTag.LDY s b = Except.ok (1, { s with y_reg := v, status_reg := setFlagBit (setFlagBit s.status_reg FLAGS.Z (decide (v = 0x00))) FLAGS.N (decide (0 < (v &&& (0x80 : Int)))) }, b2) := by
  show CPU.opLDY s b = _
  rw [CPU.opLDY, hread, bind_ok_l]

/-- Claim C9: a load instruction (LDA/LDX/LDY), under any addressing
mode (none of the 13 modes touches the status register), loads the read
byte into its target register, sets Zero exactly when the byte is zero
and Negative exactly to the byte's bit 7, and leaves the Carry,
InterruptDisable, Decimal, Break and Overflow flags bit-identical to
their pre-instruction state. -/
theorem load_flags_claim :
    (∀ (tag : AmTag) (s : CPUState) (b : Bus) (e : Int) (s' : CPUState) (b' : Bus),
        CPU.runAm tag s b = Except.ok (e, s', b') → s'.status_reg = s.status_reg) ∧
    (∀ (op : OpTag), (op = OpTag.LDA ∨ op = OpTag.LDX ∨ op = OpTag.LDY) →
        ∀ (s : CPUState) (b : Bus) (v : Int) (b2 : Bus),
          cpuRead b s.address = Except.ok (v, b2) →
          0 ≤ v → v < 256 → 0 ≤ s.status_reg → s.status_reg < 256 →
          ∃ s' : CPUState,
            CPU.runOp op s b = Except.ok (1, s', b2) ∧
            loadTarget op s' = v ∧
            getFlagBit s'.status_reg FLAGS.Z = decide (v = 0) ∧
            getFlagBit s'.status_reg FLAGS.N = decide (128 ≤ v) ∧
            getFlagBit s'.status_reg FLAGS.C = getFlagBit s.status_reg FLAGS.C ∧
            getFlagBit s'.status_reg FLAGS.I = getFlagBit s.status_reg FLAGS.I ∧
            getFlagBit s'.status_reg FLAGS.D = getFlagBit s.status_reg FLAGS.D ∧
            getFlagBit s'.status_reg FLAGS.B = getFlagBit s.status_reg FLAGS.B ∧
            getFlagBit s'.status_reg FLAGS.V = getFlagBit s.status_reg FLAGS.V) := by
  constructor
  · exact am_status_preserved
  · intro op hop s b v b2 hread hv0 hv1 hst0 hst1
    obtain ⟨m, hm⟩ := Int.eq_ofNat_of_zero_le hv0
    obtain ⟨n, hn⟩ := Int.eq_ofNat_of_zero_le hst0
    have hmlt : m < 256 := by rw [hm] at hv1; exact_mod_cast hv1
    have hnlt : n < 256 := by rw [hn] at hst1; exact_mod_cast hst1
    rcases hop with rfl | rfl | rfl
    · refine ⟨_, opLDA_run s b v b2 hread, rfl, ?_, ?_, ?_, ?_, ?_, ?_, ?_⟩
      · rw [hm, hn]; exact ld_bits_z n hnlt _ _
      · rw [hm, hn, ld_bits_n n hnlt _ _]; exact byte_bit7 m hmlt
      · rw [hm, hn]; exact ld_bits_c n hnlt _ _
      · rw [hm, hn]; exact ld_bits_i n hnlt _ _
      · rw [hm, hn]; exact ld_bits_d n hnlt _ _
      · rw [hm, hn]; exact ld_bits_b n hnlt _ _
      · rw [hm, hn]; exact ld_bits_v n hnlt _ _
    · refine ⟨_, opLDX_run s b v b2 hread, rfl, ?_, ?_, ?_, ?_, ?_, ?_, ?_⟩
      · rw [hm, hn]; exact ld_bits_z n hnlt _ _
      · rw [hm, hn, ld_bits_n n hnlt _ _]; exact byte_bit7 m hmlt
      · rw [hm, hn]; exact ld_bits_c n hnlt _ _
      · rw [hm, hn]; exact ld_bits_i n hnlt _ _
      · rw [hm, hn]; exact ld_bits_d n hnlt _ _
      · rw [hm, hn]; exact ld_bits_b n hnlt _ _
      · rw [hm, hn]; exact ld_bits_v n hnlt _ _
    · refine ⟨_, opLDY_run s b v b2 hread, rfl, ?_, ?_, ?_, ?_, ?_, ?_, ?_⟩
      · rw [hm, hn]; exact ld_bits_z n hnlt _ _
      · rw [hm, hn, ld_bits_n n hnlt _ _]; exact byte_bit7 m hmlt
      · rw [hm, hn]; exact ld_bits_c n hnlt _ _
      · rw [hm, hn]; exact ld_bits_i n hnlt _ _
      · rw [hm, hn]; exact ld_bits_d n hnlt _ _
      · rw [hm, hn]; exact ld_bits_b n hnlt _ _
      · rw [hm, hn]; exact ld_bits_v n hnlt _ _

/-- Witness for `load_flags_claim`: `LDA` reading the byte `0x44` at
address 2 of `ldaBus` from a state with status `0x34` — the loaded
accumulator is `0x44`, Zero and Negative come out false, and
C/I/D/B/V keep their `0x34` values. -/
theorem load_flags_claim_witness :
    ∃ s' : CPUState,
      CPU.runOp OpTag.LDA { ldaS with address := 2 } ldaBus = Except.ok (1, s', ldaBus) ∧
      loadTarget OpTag.LDA s' = 0x44 ∧
      getFlagBit s'.status_reg FLAGS.Z = decide ((0x44 : Int) = 0) ∧
      getFlagBit s'.status_reg FLAGS.N = decide ((128 : Int) ≤ 0x44) ∧
      getFlagBit s'.status_reg FLAGS.C = getFlagBit ({ ldaS with address := 2 } : CPUState).status_reg FLAGS.C ∧
      getFlagBit s'.status_reg FLAGS.I = getFlagBit ({ ldaS with address := 2 } : CPUState).status_reg FLAGS.I ∧
      getFlagBit s'.status_reg FLAGS.D = getFlagBit ({ ldaS with address := 2 } : CPUState).status_reg FLAGS.D ∧
      getFlagBit s'.status_reg FLAGS.B = getFlagBit ({ ldaS with address := 2 } : CPUState).status_reg FLAGS.B ∧
      getFlagBit s'.status_reg FLAGS.V = getFlagBit ({ ldaS with address := 2 } : CPUState).status_reg FLAGS.V :=
  load_flags_claim.2 OpTag.LDA (Or.inl rfl) { ldaS with address := 2 } ldaBus 0x44 ldaBus
    ldaBus_r2 (by norm_num) (by norm_num) (by decide) (by decide)


lemma ppu_write_nt (p : PPUState) (c : Cartridge) (off v : Int)
    (hc : p.cart = some c) (hsz : p.name_table.size = 1024)
    (h0 : 0 ≤ off) (h1 : off < 1024) :
    PPU.busWrite p (0x2000 + off) v =
      Except.ok { p with name_table := p.name_table.setD off.toNat v } := by
  have hm1 : ((0x2000 : Int) + off) &&& (0x3FFF : Int) = 0x2000 + off := by
    show pyAnd _ _ = _
    rw [pyAnd_mask 14 _ (by norm_num) _ (by omega)]
    omega
  have hm2 : ((0x2000 : Int) + off) &&& (0x0FFF : Int) = off := by
    show pyAnd _ _ = _
    rw [pyAnd_mask 12 _ (by norm_num) _ (by omega)]
    omega
  have hm3 : off &&& (0x03FF : Int) = off := by
    show pyAnd _ _ = _
    rw [pyAnd_mask 10 _ (by norm_num) _ (by omega)]
    omega
  have hlt : off.toNat < p.name_table.size := by
    rw [hsz]
    omega
  rw [PPU.busWrite]
  dsimp only
  rw [hm1, if_neg (by omega), if_pos ⟨⟨by omega, by omega⟩, by rw [hc]; rfl⟩, hm2, hc]
  dsimp only
  cases hmir : c.mirror with
  | HORIZONTAL =>
    rw [if_pos (show MIRROR.HORIZONTAL = MIRROR.HORIZONTAL ∧ (0x0000 : Int) ≤ off ∧ off ≤ 0x07FF from ⟨rfl, by omega, by omega⟩),
      hm3, show off = ((off.toNat : Nat) : Int) by omega, pySet_ok _ _ _ hlt, bind_ok_l]
    rfl
  | VERTICAL =>
    rw [if_neg (show ¬(MIRROR.VERTICAL = MIRROR.HORIZONTAL ∧ (0x0000 : Int) ≤ off ∧ off ≤ 0x07FF) from fun h => absurd h.1 (by decide)),
      if_neg (show ¬(MIRROR.VERTICAL = MIRROR.HORIZONTAL ∧ (0x0800 : Int) ≤ off ∧ off ≤ 0x0FFF) from fun h => absurd h.1 (by decide)),
      if_pos (show MIRROR.VERTICAL = MIRROR.VERTICAL ∧ (((0x0000 : Int) ≤ off ∧ off ≤ 0x03FF) ∨ ((0x0800 : Int) ≤ off ∧ off ≤ 0x0BFF)) from ⟨rfl, Or.inl ⟨by omega, by omega⟩⟩),
      hm3, show off = ((off.toNat : Nat) : Int) by omega, pySet_ok _ _ _ hlt, bind_ok_l]
    rfl

lemma ppu_read_nt_h (q : PPUState) (c : Cartridge) (off : Int)
    (hc : q.cart = some c) (hmir : c.mirror = MIRROR.HORIZONTAL)
    (hsz : q.name_table.size = 1024) (h0 : 0 ≤ off) (h1 : off < 1024) :
    PPU.busRead q ((0x2800 : Int) + off) = Except.ok (q.name_table.getD off.toNat 0) := by
  have hm1 : ((0x2800 : Int) + off) &&& (0x3FFF : Int) = 0x2800 + off := by
    show pyAnd _ _ = _
    rw [pyAnd_mask 14 _ (by norm_num) _ (by omega)]
    omega
  have hm2 : ((0x2800 : Int) + off) &&& (0x0FFF : Int) = (0x0800 : Int) + off := by
    show pyAnd _ _ = _
    rw [pyAnd_mask 12 _ (by norm_num) _ (by omega)]
    omega
  have hm3 : ((0x0800 : Int) + off) &&& (0x03FF : Int) = off := by
    show pyAnd _ _ = _
    rw [pyAnd_mask 10 _ (by norm_num) _ (by omega)]
    omega
  have hlt : off.toNat < q.name_table.size := by
    rw [hsz]
    omega
  rw [PPU.busRead]
  dsimp only
  rw [hm1, if_neg (by omega), if_pos ⟨⟨by omega, by omega⟩, by rw [hc]; rfl⟩, hm2, hc]
  dsimp only
  rw [hmir,
    if_neg (show ¬(MIRROR.HORIZONTAL = MIRROR.HORIZONTAL ∧ (0x0000 : Int) ≤ 0x0800 + off ∧ (0x0800 : Int) + off ≤ 0x07FF) from fun h => absurd h.2.2 (by omega)),
    if_pos (show MIRROR.HORIZONTAL = MIRROR.HORIZONTAL ∧ (0x0800 : Int) ≤ 0x0800 + off ∧ (0x0800 : Int) + off ≤ 0x0FFF from ⟨rfl, by omega, by omega⟩),
    hm3, show off = ((off.toNat : Nat) : Int) by omega, pyIndex_ok _ _ hlt]
  rfl

lemma ppu_read_nt_v (q : PPUState) (c : Cartridge) (off : Int)
    (hc : q.cart = some c) (hmir : c.mirror = MIRROR.VERTICAL)
    (hsz : q.name_table.size = 1024) (h0 : 0 ≤ off) (h1 : off < 1024) :
    PPU.busRead q ((0x2400 : Int) + off) = Except.ok (q.name_table.getD off.toNat 0) := by
  have hm1 : ((0x2400 : Int) + off) &&& (0x3FFF : Int) = 0x2400 + off := by
    show pyAnd _ _ = _
    rw [pyAnd_mask 14 _ (by norm_num) _ (by omega)]
    omega
  have hm2 : ((0x2400 : Int) + off) &&& (0x0FFF : Int) = (0x0400 : Int) + off := by
    show pyAnd _ _ = _
    rw [pyAnd_mask 12 _ (by norm_num) _ (by omega)]
    omega
  have hm3 : ((0x0400 : Int) + off) &&& (0x03FF : Int) = off := by
    show pyAnd _ _ = _
    rw [pyAnd_mask 10 _ (by norm_num) _ (by omega)]
    omega
  have hlt : off.toNat < q.name_table.size := by
    rw [hsz]
    omega
  rw [PPU.busRead]
  dsimp only
  rw [hm1, if_neg (by omega), if_pos ⟨⟨by omega, by omega⟩, by rw [hc]; rfl⟩, hm2, hc]
  dsimp only
  rw [hmir,
    if_neg (show ¬(MIRROR.VERTICAL = MIRROR.HORIZONTAL ∧ (0x0000 : Int) ≤ 0x0400 + off ∧ (0x0400 : Int) + off ≤ 0x07FF) from fun h => absurd h.1 (by decide)),
    if_neg (show ¬(MIRROR.VERTICAL = MIRROR.HORIZONTAL ∧ (0x0800 : Int) ≤ 0x0400 + off ∧ (0x0400 : Int) + off ≤ 0x0FFF) from fun h => absurd h.1 (by decide)),
    if_neg (show ¬(MIRROR.VERTICAL = MIRROR.VERTICAL ∧ (((0x0000 : Int) ≤ 0x0400 + off ∧ (0x0400 : Int) + off ≤ 0x03FF) ∨ ((0x0800 : Int) ≤ 0x0400 + off ∧ (0x0400 : Int) + off ≤ 0x0BFF))) from fun h => by rcases h.2 with ⟨-, hx⟩ | ⟨hx, -⟩ <;> omega),
    if_pos (show MIRROR.VERTICAL = MIRROR.VERTICAL ∧ (((0x0400 : Int) ≤ 0x0400 + off ∧ (0x0400 : Int) + off ≤ 0x07FF) ∨ ((0x0C00 : Int) ≤ 0x0400 + off ∧ (0x0400 : Int) + off ≤ 0x0FFF)) from ⟨rfl, Or.inl ⟨by omega, by omega⟩⟩),
    hm3, show off = ((off.toNat : Nat) : Int) by omega, pyIndex_ok _ _ hlt]
  rfl

/-- Claim C10: the two nametable "rows" are one shared store (Python
builds them as `2 * [1024 * [0x00]]`, two references to the same list),
so for every 10-bit offset and byte, writing through the PPU internal
bus to the address resolving to table 0 at that offset makes the read of
the address resolving to table 1 at the same offset return that byte —
under horizontal mirroring (write `0x2000+off`, read `0x2800+off`) and
vertical mirroring (write `0x2000+off`, read `0x2400+off`) alike. -/
theorem nametable_alias :
    ∀ (p : PPUState) (c : Cartridge) (off v : Int),
      p.cart = some c →
      p.name_table.size = 1024 →
      0 ≤ off → off < 1024 →
      ∃ p' : PPUState,
        PPU.busWrite p ((0x2000 : Int) + off) v = Except.ok p' ∧
        p'.name_table = p.name_table.setD off.toNat v ∧
        (c.mirror = MIRROR.HORIZONTAL → PPU.busRead p' ((0x2800 : Int) + off) = Except.ok v) ∧
        (c.mirror = MIRROR.VERTICAL → PPU.busRead p' ((0x2400 : Int) + off) = Except.ok v) := by
  intro p c off v hc hsz h0 h1
  have hsz' : ({ p with name_table := p.name_table.setD off.toNat v } : PPUState).name_table.size = 1024 := by
    show (p.name_table.setD off.toNat v).size = 1024
    rw [size_setD]
    exact hsz
  have hgd : ({ p with name_table := p.name_table.setD off.toNat v } : PPUState).name_table.getD off.toNat 0 = v := by
    show (p.name_table.setD off.toNat v).getD off.toNat 0 = v
    exact getD_setD_same _ _ _ (by rw [hsz]; omega)
  have hc' : ({ p with name_table := p.name_table.setD off.toNat v } : PPUState).cart = some c := hc
  refine ⟨_, ppu_write_nt p c off v hc hsz h0 h1, rfl, ?_, ?_⟩
  · intro hmir
    rw [ppu_read_nt_h _ c off hc' hmir hsz' h0 h1, hgd]
  · intro hmir
    rw [ppu_read_nt_v _ c off hc' hmir hsz' h0 h1, hgd]

lemma testPPU_sz (m : MIRROR) : (testPPU m).name_table.size = 1024 := by
  show (Array.mkArray 1024 (0 : Int)).size = 1024
  rw [Array.size_mkArray]

/-- Witness for `nametable_alias`: offset 5, byte `0xAB`, under both
mirroring modes on a fresh PPU. -/
theorem nametable_alias_witness :
    (∃ p' : PPUState,
      PPU.busWrite (testPPU MIRROR.HORIZONTAL) ((0x2000 : Int) + 5) 0xAB = Except.ok p' ∧
      p'.name_table = (testPPU MIRROR.HORIZONTAL).name_table.setD (5 : Int).toNat 0xAB ∧
      ((mirrorCart MIRROR.HORIZONTAL).mirror = MIRROR.HORIZONTAL →
        PPU.busRead p' ((0x2800 : Int) + 5) = Except.ok 0xAB) ∧
      ((mirrorCart MIRROR.HORIZONTAL).mirror = MIRROR.VERTICAL →
        PPU.busRead p' ((0x2400 : Int) + 5) = Except.ok 0xAB)) ∧
    (∃ p' : PPUState,
      PPU.busWrite (testPPU MIRROR.VERTICAL) ((0x2000 : Int) + 5) 0xAB = Except.ok p' ∧
      p'.name_table = (testPPU MIRROR.VERTICAL).name_table.setD (5 : Int).toNat 0xAB ∧
      ((mirrorCart MIRROR.VERTICAL).mirror = MIRROR.HORIZONTAL →
        PPU.busRead p' ((0x2800 : Int) + 5) = Except.ok 0xAB) ∧
      ((mirrorCart MIRROR.VERTICAL).mirror = MIRROR.VERTICAL →
        PPU.busRead p' ((0x2400 : Int) + 5) = Except.ok 0xAB)) :=
  ⟨nametable_alias (testPPU MIRROR.HORIZONTAL) (mirrorCart MIRROR.HORIZONTAL) 5 0xAB rfl
      (testPPU_sz MIRROR.HORIZONTAL) (by norm_num) (by norm_num),
   nametable_alias (testPPU MIRROR.VERTICAL) (mirrorCart MIRROR.VERTICAL) 5 0xAB rfl
      (testPPU_sz MIRROR.VERTICAL) (by norm_num) (by norm_num)⟩

end NES
